import Mathlib

/-!
Formal model of the Sender-Receiver signaling game stage, shallowly embedded
from the TypeScript sources:

  - utils/src/stages/sender_receiver_stage.ts: SeededRandom, generateBalancedDefaults,
    getRoundDefault, createSenderReceiverStagePublicData, and the data model;
  - functions/src/stages/sender_receiver.utils.ts: startGameIfReady, createNewRound,
    calculatePayoffs;
  - functions/src/stages/sender_receiver.endpoints.ts: submitSenderReceiverAction.

Representation choices:

  - JS strings are represented as lists of UTF-16 code units (List Nat); charCodeAt
    becomes list indexing and string concatenation becomes list append.
  - JS numbers are exact: 32-bit wrap-around is modelled with toInt32, and the one
    place where a product can exceed 2^53 (the LCG multiplication) is modelled with
    fl64, the rounding of an integer to the nearest IEEE double (53-bit mantissa,
    ties to even).  All other arithmetic in the sources stays below 2^53 and is exact.
  - Firestore documents become Lean structures; the per-request transaction becomes a
    pure function from the read state to either a named error (the transaction aborts,
    nothing is written) or the written state.
-/

namespace SRGame

/-- Truncation of an integer to a signed 32-bit value, as performed by the JS
bitwise operators (hash |= 0 and the implicit ToInt32 of hash << 5). -/
def toInt32 (n : Int) : Int :=
  ((n + 2 ^ 31) % 2 ^ 32) - 2 ^ 31

/-- One step of SeededRandom.hashString: hash = (hash << 5) - hash + charCode
followed by hash |= 0.  The shift operates on the int32 view of hash; the
subtraction and addition are exact in doubles at these magnitudes. -/
def hashStep (h : Int) (c : Nat) : Int :=
  toInt32 (toInt32 (h * 32) - h + c)

/-- SeededRandom.hashString followed by Math.abs, producing the initial seed. -/
def hashString (s : List Nat) : Nat :=
  (s.foldl hashStep 0).natAbs

/-- Fuel-driven base-2 logarithm, structurally recursive so that closed values
reduce inside the kernel. -/
def log2fuel : Nat → Nat → Nat
  | 0, _ => 0
  | f + 1, n => if 2 ≤ n then log2fuel f (n / 2) + 1 else 0

/-- Base-2 logarithm (the fuel n always suffices). -/
def jslog2 (n : Nat) : Nat := log2fuel n n

/-- Rounding of a nonnegative integer to the nearest IEEE 754 double
(53 significant bits, ties to even).  Every intermediate value of the LCG is an
integer, so this captures the JS float behaviour exactly. -/
def fl64 (n : Nat) : Nat :=
  if n < 2 ^ 53 then n
  else
    (if 2 ^ (jslog2 n - 52 - 1) < n % 2 ^ (jslog2 n - 52)
        ∨ (n % 2 ^ (jslog2 n - 52) = 2 ^ (jslog2 n - 52 - 1) ∧ n / 2 ^ (jslog2 n - 52) % 2 = 1)
      then n / 2 ^ (jslog2 n - 52) + 1
      else n / 2 ^ (jslog2 n - 52)) * 2 ^ (jslog2 n - 52)

/-- LCG multiplier from SeededRandom.next. -/
def lcgA : Nat := 1103515245

/-- LCG increment from SeededRandom.next. -/
def lcgC : Nat := 12345

/-- The modulus 2^31; the source masks with 0x7fffffff. -/
def m31 : Nat := 2 ^ 31

/-- The seed update of SeededRandom.next:
seed = (seed * 1103515245 + 12345) & 0x7fffffff, with the JS double rounding of
the product (which can exceed 2^53) made explicit, and the bitwise and with
0x7fffffff keeping the low 31 bits. -/
def jsNextState (s : Nat) : Nat :=
  fl64 (fl64 (s * lcgA) + lcgC) % m31

/-- The value returned by SeededRandom.next: seed / 0x7fffffff.  Note the
divisor is 0x7fffffff = 2^31 - 1, not 2^31. -/
def jsNextVal (s : Nat) : ℚ :=
  (jsNextState s : ℚ) / ((m31 : ℚ) - 1)

/-- The shuffle index j = Math.floor(next() * (i + 1)).  For the ranges reached
by this program (state < 2^31, i + 1 at most in the tens) the two float
roundings of the division and multiplication cannot move the product across an
integer, so the floor equals exact integer division. -/
def jsShuffleIndex (state : Nat) (bound : Nat) : Nat :=
  state * bound / (m31 - 1)

/-- Exchange of positions i and j performed by the destructuring assignment in
SeededRandom.shuffle.  Both indices are in range in every reachable call (see
jsNextState_ne_max below); out-of-range reads are mapped to the identity. -/
def swapL {α : Type} (l : List α) (i j : Nat) : List α :=
  match l[i]?, l[j]? with
  | some a, some b => (l.set i b).set j a
  | _, _ => l

/-- The loop of SeededRandom.shuffle, from index i down to 1; each iteration
first advances the seed, then swaps position i with the drawn index j. -/
def shuffleGo {α : Type} : List α → Nat → Nat → List α × Nat
  | l, st, 0 => (l, st)
  | l, st, i + 1 =>
    let st2 := jsNextState st
    let j := jsShuffleIndex st2 (i + 2)
    shuffleGo (swapL l (i + 1) j) st2 i

/-- SeededRandom.shuffle: Fisher-Yates with the seeded generator, returning the
shuffled copy and the advanced seed. -/
def shuffle {α : Type} (l : List α) (st : Nat) : List α × Nat :=
  shuffleGo l st (l.length - 1)

/-- Math.round for the nonnegative arguments used here: floor(x + 1/2). -/
def jsRound (q : ℚ) : Int :=
  ⌊q + 1 / 2⌋

/-- Option choice A or B. -/
inductive SRChoice : Type
  | A
  | B
deriving DecidableEq, Repr

/-- One entry of the RoundDefaults sequence produced by the generator. -/
structure RoundDefaults : Type where
  round : Nat
  trueState : Nat
  senderDefault : Option SRChoice
  receiverDefault : Option SRChoice
deriving DecidableEq, Repr

/-- The balanced A/B pool for one hidden-state bucket, before shuffling. -/
def balancedList (na nb : Nat) : List SRChoice :=
  List.replicate na SRChoice.A ++ List.replicate nb SRChoice.B

/-- The zip loop of generateBalancedDefaults: walk the shuffled states, taking
the next sender/receiver default of the matching bucket (index idx1 for state-1
rounds, idx2 otherwise). -/
def buildRounds (sd1 sd2 rd1 rd2 : List SRChoice) :
    List Nat → Nat → Nat → Nat → List RoundDefaults
  | [], _, _, _ => []
  | st :: rest, i, idx1, idx2 =>
    if st = 1 then
      ⟨i + 1, 1, sd1[idx1]?, rd1[idx1]?⟩ :: buildRounds sd1 sd2 rd1 rd2 rest (i + 1) (idx1 + 1) idx2
    else
      ⟨i + 1, 2, sd2[idx2]?, rd2[idx2]?⟩ :: buildRounds sd1 sd2 rd1 rd2 rest (i + 1) idx1 (idx2 + 1)

/-- generateBalancedDefaults(numRounds, state1Probability, seed).  The negative
array lengths a probability outside [0,1] would produce in JS (a thrown
RangeError) are clamped; the theorems below restrict to probabilities in
[0,1], where the model is exact. -/
def generateBalancedDefaults (numRounds : Nat) (p : ℚ) (seed : List Nat) : List RoundDefaults :=
  let s0 := hashString seed
  let numState1 := (jsRound ((numRounds : ℚ) * p)).toNat
  let numState2 := numRounds - numState1
  let states : List Nat := List.replicate numState1 1 ++ List.replicate numState2 2
  let r1 := shuffle states s0
  let state1A := numState1 / 2
  let state1B := numState1 - state1A
  let state2A := numState2 / 2
  let state2B := numState2 - state2A
  let r2 := shuffle (balancedList state1A state1B) r1.2
  let r3 := shuffle (balancedList state2A state2B) r2.2
  let r4 := shuffle (balancedList state1A state1B) r3.2
  let r5 := shuffle (balancedList state2A state2B) r4.2
  buildRounds r2.1 r3.1 r4.1 r5.1 r1.1 0 0 0

/-- getRoundDefault: regenerate the full sequence and index it (1-based).  The
JS indexing of a missing entry yields undefined; here it yields none. -/
def getRoundDefault (roundNumber numRounds : Nat) (p : ℚ) (seed : List Nat) :
    Option RoundDefaults :=
  (generateBalancedDefaults numRounds p seed)[roundNumber - 1]?

/-- Measurement helper: how many rounds of the hidden-state bucket ts carry the
default choice c under the given projection (sender or receiver default). -/
def defaultCount (g : List RoundDefaults) (ts : Nat)
    (proj : RoundDefaults → Option SRChoice) (c : SRChoice) : Nat :=
  List.countP (fun r => proj r == some c) (List.filter (fun r => r.trueState == ts) g)

/-! The data model of the stage (sender_receiver_stage.ts interfaces). -/

/-- Round status, in its fixed forward order. -/
inductive RoundStatus : Type
  | WAITING_BOTH_START
  | WAITING_SENDER_DECIDE
  | WAITING_RECEIVER_DECIDE
  | SHOW_FEEDBACK
deriving DecidableEq, Repr

/-- SenderReceiverRoundData.  Timestamps are document-store millisecond values
(Nat); the optional ready flags of the TS interface default to false, matching
the falsy reading of an absent field. -/
structure RoundData : Type where
  roundNumber : Nat
  trueState : Nat
  status : RoundStatus
  senderReadyStart : Bool := false
  receiverReadyStart : Bool := false
  senderChoice : Option SRChoice := none
  senderMessage : Option (List Nat) := none
  receiverChoice : Option SRChoice := none
  defaultSenderChoice : Option SRChoice := none
  defaultReceiverChoice : Option SRChoice := none
  senderTimedOut : Bool := false
  receiverTimedOut : Bool := false
  senderPayoff : Option Int := none
  receiverPayoff : Option Int := none
  senderReadyNext : Bool := false
  receiverReadyNext : Bool := false
  startTime : Option Nat := none
  senderUnlockedTime : Option Nat := none
  senderSubmittedTime : Option Nat := none
  receiverSawMessageTime : Option Nat := none
  receiverUnlockedTime : Option Nat := none
  receiverSubmittedTime : Option Nat := none
  senderReactionTimeSeconds : Option ℚ := none
  receiverReactionTimeSeconds : Option ℚ := none
  senderActiveTimeSeconds : Option ℚ := none
  receiverActiveTimeSeconds : Option ℚ := none
deriving DecidableEq, Repr

/-- SenderReceiverStagePublicData: the single mutable document of one game
instance.  The sparse roundMap becomes a function from round numbers to
optional rounds. -/
structure PublicData : Type where
  senderId : Option (List Nat)
  receiverId : Option (List Nat)
  currentRound : Nat
  roundMap : Nat → Option RoundData

/-- The fields of SenderReceiverStageConfig consumed by the endpoint. -/
structure SRConfig : Type where
  numRounds : Nat
  state1Probability : ℚ
  enableBalancedDefaults : Bool
  requireParticipantClick : Bool
  payoffSenderChoiceA : Int
  payoffSenderChoiceB1 : Int
  payoffSenderChoiceB2 : Int
  payoffReceiverChoiceA : Int
  payoffReceiverChoiceB1 : Int
  payoffReceiverChoiceB2 : Int
deriving DecidableEq, Repr

/-- The two roles of the game. -/
inductive Role : Type
  | sender
  | receiver
deriving DecidableEq, Repr

/-- The action discriminator of SenderReceiverActionData. -/
inductive ActionKind : Type
  | assign_role
  | start_game
  | sender_signal
  | receiver_saw_message
  | receiver_choice
  | next_round
deriving DecidableEq, Repr

/-- The optional payload of SenderReceiverActionData. -/
structure Payload : Type where
  senderChoice : Option SRChoice := none
  senderMessage : Option (List Nat) := none
  receiverChoice : Option SRChoice := none
  requestedRole : Option Role := none
  activeTimeSeconds : Option ℚ := none
  isTimedOut : Option Bool := none
deriving DecidableEq, Repr

/-- The named errors thrown by the endpoint (HttpsError code and message). -/
inductive Err : Type
  | unauthenticated
  /-- not-found: stage missing or wrong kind, or the public data doc missing. -/
  | notFound
  /-- permission-denied: "User is not a player in this game". -/
  | permissionDeniedNotPlayer
  /-- permission-denied: "Only sender can signal". -/
  | permissionDeniedOnlySender
  /-- permission-denied: "Only receiver can choose". -/
  | permissionDeniedOnlyReceiver
  /-- failed-precondition: "Round data not initialized". -/
  | stateConflictRoundMissing
  /-- failed-precondition: "Not sender turn. Current status: ...". -/
  | stateConflictNotSenderTurn
  /-- failed-precondition: "Not receiver turn". -/
  | stateConflictNotReceiverTurn
  /-- failed-precondition: "Roles are full". -/
  | rolesFull
  /-- failed-precondition: "Requested role ... is not available.". -/
  | roleUnavailable
  /-- invalid-argument: "Missing choice". -/
  | invalidArgumentMissingChoice
deriving DecidableEq, Repr

/-- Point update of the round map, as written by
transaction.update(ref, {roundMap.k: v}). -/
def setRound (m : Nat → Option RoundData) (k : Nat) (v : RoundData) :
    Nat → Option RoundData :=
  fun n => if n = k then some v else m n

/-- Rendering of a nullable id inside a JS template string: null prints as the
four characters of "null". -/
def idCodes : Option (List Nat) → List Nat
  | some l => l
  | none => [110, 117, 108, 108]

/-- The pair seed template senderId-receiverId-stageId (45 is the hyphen). -/
def pairSeedOf (senderId receiverId : Option (List Nat)) (stageId : List Nat) : List Nat :=
  idCodes senderId ++ [45] ++ idCodes receiverId ++ [45] ++ stageId

/-- createNewRound from sender_receiver.utils.ts: a fresh round with the hidden
state drawn from the balanced generator.  The source writes the stale keys
senderLabel and defaultSenderLabel, leaving senderChoice and defaultSenderChoice
undefined, which every later read treats like null; both are modelled as none.
When roundNumber is out of range the generator entry is missing (the JS code
would crash on the field access; this call never happens in the endpoint). -/
def createNewRound (roundNumber : Nat) (config : SRConfig) (pairSeed : List Nat)
    (isFirstRound : Bool) (now : Nat) : RoundData :=
  let trueState :=
    match getRoundDefault roundNumber config.numRounds config.state1Probability pairSeed with
    | some rdft => rdft.trueState
    | none => 0
  { roundNumber := roundNumber
    trueState := trueState
    status := if isFirstRound then .WAITING_BOTH_START else .WAITING_SENDER_DECIDE
    senderReadyStart := false
    receiverReadyStart := false
    startTime := if isFirstRound then none else some now
    senderUnlockedTime := if isFirstRound then none else some now }

/-- startGameIfReady from sender_receiver.utils.ts: once both roles are filled
and round 1 does not exist, produce the round-1 initialization (the caller also
sets currentRound to 1). -/
def startGameIfReady (pd : PublicData) (config : SRConfig) (stageId : List Nat)
    (now : Nat) : Option RoundData :=
  match pd.senderId, pd.receiverId with
  | some sid, some rid =>
    if (pd.roundMap 1).isSome then none
    else some (createNewRound 1 config (pairSeedOf (some sid) (some rid) stageId) true now)
  | _, _ => none

/-- calculatePayoffs from sender_receiver.utils.ts (pure payoff table lookup;
not called by the endpoint, which inlines the same logic plus a null check). -/
def calculatePayoffs (choice : SRChoice) (trueState : Nat) (config : SRConfig) :
    Int × Int :=
  if choice = .A then (config.payoffSenderChoiceA, config.payoffReceiverChoiceA)
  else if trueState = 1 then (config.payoffSenderChoiceB1, config.payoffReceiverChoiceB1)
  else (config.payoffSenderChoiceB2, config.payoffReceiverChoiceB2)

/-- The payoff logic inlined in the receiver_choice handler of the endpoint:
a null recorded senderChoice forces both payoffs to 0, otherwise the payoff
table applies. -/
def receiverPayoffCalc (config : SRConfig) (senderChoice : Option SRChoice)
    (choice : SRChoice) (trueState : Nat) : Int × Int :=
  if senderChoice = none then (0, 0)
  else if choice = .A then (config.payoffSenderChoiceA, config.payoffReceiverChoiceA)
  else if trueState = 1 then (config.payoffSenderChoiceB1, config.payoffReceiverChoiceB1)
  else (config.payoffSenderChoiceB2, config.payoffReceiverChoiceB2)

/-- The slot decision of the assign_role handler, in the priority order of the
source: an explicit request binds (no silent fallback), otherwise historical
continuity, otherwise first-come-first-served, otherwise the roles are full. -/
def assignSlot (pd : PublicData) (hist reqRole : Option Role) : Except Err Role :=
  match reqRole with
  | some .sender => if pd.senderId = none then .ok .sender else .error .roleUnavailable
  | some .receiver => if pd.receiverId = none then .ok .receiver else .error .roleUnavailable
  | none =>
    if hist = some .sender ∧ pd.senderId = none then .ok .sender
    else if hist = some .receiver ∧ pd.receiverId = none then .ok .receiver
    else if pd.senderId = none then .ok .sender
    else if pd.receiverId = none then .ok .receiver
    else .error .rolesFull

/-- The write step of the assign_role handler: after recording the assignment,
start the game (create round 1 and set currentRound to 1) when both roles are
now filled and round 1 does not exist yet. -/
def assignApply (pd1 : PublicData) (config : SRConfig) (stageId : List Nat)
    (now : Nat) : Except Err PublicData :=
  match startGameIfReady pd1 config stageId now with
  | some r => .ok { pd1 with roundMap := setRound pd1.roundMap 1 r, currentRound := 1 }
  | none => .ok pd1

/-- The assign_role handler of submitSenderReceiverAction.  The historical-role
query over the sibling stage documents is abstracted as the input hist. -/
def handleAssignRole (config : SRConfig) (stageId userId : List Nat)
    (hist : Option Role) (reqRole : Option Role) (now : Nat) (pd : PublicData) :
    Except Err PublicData :=
  if pd.senderId = some userId ∨ pd.receiverId = some userId then .ok pd
  else
    match assignSlot pd hist reqRole with
    | .error e => .error e
    | .ok .sender => assignApply ({ pd with senderId := some userId }) config stageId now
    | .ok .receiver => assignApply ({ pd with receiverId := some userId }) config stageId now

/-- The start_game handler: set the caller's ready flag; when the partner flag
was already set in the state just read, start the round.  A wrong status is a
silent no-op. -/
def handleStartGame (userId : List Nat) (rd : RoundData) (now : Nat) (pd : PublicData) :
    Except Err PublicData :=
  if rd.status ≠ .WAITING_BOTH_START then .ok pd
  else
    let pair : RoundData × Bool :=
      if pd.senderId = some userId then
        ({ rd with senderReadyStart := true }, rd.receiverReadyStart)
      else if pd.receiverId = some userId then
        ({ rd with receiverReadyStart := true }, rd.senderReadyStart)
      else (rd, false)
    let rd2 :=
      if pair.2 then
        { pair.1 with
          status := .WAITING_SENDER_DECIDE
          startTime := some now
          senderUnlockedTime := some now }
      else pair.1
    .ok { pd with roundMap := setRound pd.roundMap pd.currentRound rd2 }

/-- The round update written by the sender_signal handler: record the signal
(a missing choice is stored as null, an empty message likewise), compute the
audit default, zero-force both payoffs for a timed-out sender under
requireParticipantClick, and hand the turn to the receiver. -/
def senderSignalRound (config : SRConfig) (stageId : List Nat) (payload : Payload)
    (rd : RoundData) (now : Nat) (pd : PublicData) : RoundData :=
  { rd with
    senderChoice := payload.senderChoice
    senderMessage :=
      match payload.senderMessage with
      | some m => if m = [] then none else some m
      | none => none
    senderSubmittedTime := some now
    senderReactionTimeSeconds :=
      rd.senderUnlockedTime.map (fun t => ((now : ℚ) - (t : ℚ)) / 1000)
    senderActiveTimeSeconds := payload.activeTimeSeconds
    senderTimedOut := payload.isTimedOut.getD false
    defaultSenderChoice :=
      if config.enableBalancedDefaults then
        (getRoundDefault pd.currentRound config.numRounds config.state1Probability
            (pairSeedOf pd.senderId pd.receiverId stageId)).bind (fun r => r.senderDefault)
      else none
    senderPayoff :=
      if config.requireParticipantClick ∧ payload.isTimedOut = some true then some 0
      else rd.senderPayoff
    receiverPayoff :=
      if config.requireParticipantClick ∧ payload.isTimedOut = some true then some 0
      else rd.receiverPayoff
    status := .WAITING_RECEIVER_DECIDE
    receiverUnlockedTime := some now }

/-- The sender_signal handler: only the sender may signal, and only while the
round waits for the sender; then the signal round update is written. -/
def handleSenderSignal (config : SRConfig) (stageId userId : List Nat)
    (payload : Payload) (rd : RoundData) (now : Nat) (pd : PublicData) :
    Except Err PublicData :=
  if pd.senderId ≠ some userId then .error .permissionDeniedOnlySender
  else if rd.status ≠ .WAITING_SENDER_DECIDE then .error .stateConflictNotSenderTurn
  else
    .ok { pd with
      roundMap := setRound pd.roundMap pd.currentRound
        (senderSignalRound config stageId payload rd now pd) }

/-- The receiver_saw_message handler: a pure telemetry marker, silently ignored
for a non-receiver, a wrong status, or a duplicate. -/
def handleReceiverSawMessage (userId : List Nat) (rd : RoundData) (now : Nat)
    (pd : PublicData) : Except Err PublicData :=
  if pd.receiverId ≠ some userId then .ok pd
  else if rd.status ≠ .WAITING_RECEIVER_DECIDE then .ok pd
  else if rd.receiverSawMessageTime.isSome then .ok pd
  else
    .ok { pd with
      roundMap := setRound pd.roundMap pd.currentRound
        { rd with receiverSawMessageTime := some now } }

/-- The round update written by the receiver_choice handler: both payoffs are
computed from the recorded senderChoice, the hidden state and the payoff table,
the decision is recorded, and the round ends in SHOW_FEEDBACK. -/
def receiverChoiceRound (config : SRConfig) (stageId : List Nat) (payload : Payload)
    (choice : SRChoice) (rd : RoundData) (now : Nat) (pd : PublicData) : RoundData :=
  { rd with
    receiverChoice := some choice
    receiverSubmittedTime := some now
    receiverReactionTimeSeconds :=
      rd.receiverUnlockedTime.map (fun t => ((now : ℚ) - (t : ℚ)) / 1000)
    receiverActiveTimeSeconds := payload.activeTimeSeconds
    receiverTimedOut := payload.isTimedOut.getD false
    defaultReceiverChoice :=
      if config.enableBalancedDefaults then
        (getRoundDefault pd.currentRound config.numRounds config.state1Probability
            (pairSeedOf pd.senderId pd.receiverId stageId)).bind (fun r => r.receiverDefault)
      else none
    senderPayoff := some (receiverPayoffCalc config rd.senderChoice choice rd.trueState).1
    receiverPayoff := some (receiverPayoffCalc config rd.senderChoice choice rd.trueState).2
    status := .SHOW_FEEDBACK }

/-- The receiver_choice handler: only the receiver may choose, only while the
round waits for the receiver, and a choice is required; then the choice round
update is written. -/
def handleReceiverChoice (config : SRConfig) (stageId userId : List Nat)
    (payload : Payload) (rd : RoundData) (now : Nat) (pd : PublicData) :
    Except Err PublicData :=
  if pd.receiverId ≠ some userId then .error .permissionDeniedOnlyReceiver
  else if rd.status ≠ .WAITING_RECEIVER_DECIDE then .error .stateConflictNotReceiverTurn
  else
    match payload.receiverChoice with
    | none => .error .invalidArgumentMissingChoice
    | some choice =>
      .ok { pd with
        roundMap := setRound pd.roundMap pd.currentRound
          (receiverChoiceRound config stageId payload choice rd now pd) }

/-- The round literal created by the next_round handler for the new round. -/
def nextRoundData (config : SRConfig) (stageId : List Nat) (pd : PublicData)
    (nextRoundIndex : Nat) (now : Nat) : RoundData :=
  let trueState :=
    match getRoundDefault nextRoundIndex config.numRounds config.state1Probability
        (pairSeedOf pd.senderId pd.receiverId stageId) with
    | some rdft => rdft.trueState
    | none => 0
  { roundNumber := nextRoundIndex
    trueState := trueState
    status := .WAITING_SENDER_DECIDE
    startTime := some now
    senderUnlockedTime := some now }

/-- The flag step of the next_round handler: write the caller's readyNext flag
into the current round, and report whether the partner flag was already set in
the state just read. -/
def nextRoundFlagged (userId : List Nat) (rd : RoundData) (pd : PublicData) :
    PublicData × Bool :=
  if pd.senderId = some userId then
    (PublicData.mk pd.senderId pd.receiverId pd.currentRound
        (setRound pd.roundMap pd.currentRound ({ rd with senderReadyNext := true })),
      rd.receiverReadyNext)
  else if pd.receiverId = some userId then
    (PublicData.mk pd.senderId pd.receiverId pd.currentRound
        (setRound pd.roundMap pd.currentRound ({ rd with receiverReadyNext := true })),
      rd.senderReadyNext)
  else (pd, false)

/-- The next_round handler: set the caller's readyNext flag; when the partner
flag was already set in the state just read, advance currentRound, and create
the next round unless the game is over or the round already exists. -/
def handleNextRound (config : SRConfig) (stageId userId : List Nat)
    (rd : RoundData) (now : Nat) (pd : PublicData) : Except Err PublicData :=
  if rd.status ≠ .SHOW_FEEDBACK then .ok pd
  else if !(nextRoundFlagged userId rd pd).2 then .ok (nextRoundFlagged userId rd pd).1
  else if pd.currentRound + 1 > config.numRounds then
    .ok { (nextRoundFlagged userId rd pd).1 with currentRound := pd.currentRound + 1 }
  else if (pd.roundMap (pd.currentRound + 1)).isSome then
    .ok (nextRoundFlagged userId rd pd).1
  else
    .ok { (nextRoundFlagged userId rd pd).1 with
      currentRound := pd.currentRound + 1
      roundMap := setRound (nextRoundFlagged userId rd pd).1.roundMap
        (pd.currentRound + 1) (nextRoundData config stageId pd (pd.currentRound + 1) now) }

/-- submitSenderReceiverAction: the one transaction of the endpoint, as a pure
function of the state read at its start.  An error return models the thrown
HttpsError aborting the transaction with nothing written. -/
def submitAction (config : SRConfig) (stageId userId : List Nat) (hist : Option Role)
    (now : Nat) (action : ActionKind) (payload : Payload) (pd : PublicData) :
    Except Err PublicData :=
  match action with
  | .assign_role => handleAssignRole config stageId userId hist payload.requestedRole now pd
  | a =>
    if pd.senderId = some userId ∨ pd.receiverId = some userId then
      match pd.roundMap pd.currentRound with
      | none => .error .stateConflictRoundMissing
      | some rd =>
        match a with
        | .assign_role => .ok pd
        | .start_game => handleStartGame userId rd now pd
        | .sender_signal => handleSenderSignal config stageId userId payload rd now pd
        | .receiver_saw_message => handleReceiverSawMessage userId rd now pd
        | .receiver_choice => handleReceiverChoice config stageId userId payload rd now pd
        | .next_round => handleNextRound config stageId userId rd now pd
    else .error .permissionDeniedNotPlayer

/-- The document that remains stored given a transaction result: the written
state on success, the unchanged document on an abort. -/
def storedOf (pd : PublicData) (r : Except Err PublicData) : PublicData :=
  match r with
  | .ok pd2 => pd2
  | .error _ => pd

/-- The stored state after one request: the written state on success, the
unchanged document when the transaction aborts with an error. -/
def applyCall (config : SRConfig) (stageId userId : List Nat) (hist : Option Role)
    (now : Nat) (action : ActionKind) (payload : Payload) (pd : PublicData) : PublicData :=
  storedOf pd (submitAction config stageId userId hist now action payload pd)

/-- One client request, for sequencing whole traces against a fixed config. -/
structure Call : Type where
  userId : List Nat
  hist : Option Role := none
  now : Nat := 0
  action : ActionKind
  payload : Payload := {}

/-- The stored state after a sequence of requests. -/
def applyTrace (config : SRConfig) (stageId : List Nat) (cs : List Call)
    (pd : PublicData) : PublicData :=
  cs.foldl (fun pd c => applyCall config stageId c.userId c.hist c.now c.action c.payload pd) pd

/-- createSenderReceiverStagePublicData: the empty instance document. -/
def createSenderReceiverStagePublicData : PublicData :=
  { senderId := none
    receiverId := none
    currentRound := 1
    roundMap := fun _ => none }

/-- Position of a status in the fixed forward order of the round state machine. -/
def statusRank : RoundStatus → Nat
  | .WAITING_BOTH_START => 0
  | .WAITING_SENDER_DECIDE => 1
  | .WAITING_RECEIVER_DECIDE => 2
  | .SHOW_FEEDBACK => 3

/-! Concrete fixtures used by counterexamples and witnesses: the Scenario B
payoff table, a one-letter stage id and participant ids, and an instance with
one round in a chosen status. -/

/-- A concrete config with the Scenario B payoff table. -/
def wCfg : SRConfig :=
  { numRounds := 2
    state1Probability := 1 / 2
    enableBalancedDefaults := false
    requireParticipantClick := true
    payoffSenderChoiceA := 30
    payoffSenderChoiceB1 := 0
    payoffSenderChoiceB2 := 20
    payoffReceiverChoiceA := 20
    payoffReceiverChoiceB1 := 36
    payoffReceiverChoiceB2 := 4 }

/-- A concrete stage id (the single character s). -/
def wSid : List Nat := [115]

/-- A concrete sender participant id (the single character a). -/
def wSender : List Nat := [97]

/-- A concrete receiver participant id (the single character b). -/
def wReceiver : List Nat := [98]

/-- A concrete round 1 with hidden state 1, in the given status. -/
def wRound (st : RoundStatus) : RoundData :=
  { roundNumber := 1
    trueState := 1
    status := st }

/-- A concrete instance: both roles assigned, round 1 in the given status. -/
def wPd (st : RoundStatus) : PublicData :=
  { senderId := some wSender
    receiverId := some wReceiver
    currentRound := 1
    roundMap := fun n => if n = 1 then some (wRound st) else none }

/-- C6 fixture, first step: a timed-out sender_signal that still carries choice
A, under requireParticipantClick; the handler zero-forces both payoffs. -/
def c6pd1 : PublicData :=
  applyCall wCfg wSid wSender none 0 .sender_signal
    { senderChoice := some .A, isTimedOut := some true } (wPd .WAITING_SENDER_DECIDE)

/-- C6 fixture, second step: the receiver then chooses A. -/
def c6pd2 : PublicData :=
  applyCall wCfg wSid wReceiver none 0 .receiver_choice
    { receiverChoice := some .A } c6pd1

/-- How one stored round may relate to its successor after a request: the
status never moves backward; a round in SHOW_FEEDBACK keeps its choices,
payoffs and status; and the two payoff fields move together - either both
copied unchanged or both written in this transaction. -/
def roundEvolves (rdn rdn2 : RoundData) : Prop :=
  statusRank rdn.status ≤ statusRank rdn2.status
  ∧ (rdn.status = .SHOW_FEEDBACK →
      rdn2.senderChoice = rdn.senderChoice
      ∧ rdn2.receiverChoice = rdn.receiverChoice
      ∧ rdn2.senderPayoff = rdn.senderPayoff
      ∧ rdn2.receiverPayoff = rdn.receiverPayoff
      ∧ rdn2.status = .SHOW_FEEDBACK)
  ∧ ((rdn2.senderPayoff = rdn.senderPayoff ∧ rdn2.receiverPayoff = rdn.receiverPayoff)
      ∨ (rdn2.senderPayoff.isSome ∧ rdn2.receiverPayoff.isSome))

/-! Numeric facts about the generator core. -/

theorem log2fuel_eq : ∀ (f n : Nat), n ≤ f → log2fuel f n = Nat.log2 n
  | 0, n, h => by
    have hn : n = 0 := Nat.le_zero.mp h
    subst hn
    simp [log2fuel, Nat.log2]
  | f + 1, n, h => by
    rw [log2fuel, Nat.log2]
    by_cases h2 : 2 ≤ n
    · rw [if_pos h2, if_pos h2, log2fuel_eq f (n / 2) (by omega)]
    · rw [if_neg h2, if_neg h2]

theorem jslog2_eq (n : Nat) : jslog2 n = Nat.log2 n :=
  log2fuel_eq n n le_rfl

theorem fl64_of_lt {n : Nat} (h : n < 2 ^ 53) : fl64 n = n := by
  rw [fl64, if_pos h]

theorem fl64_even {n : Nat} (h : 2 ^ 53 ≤ n) : 2 ∣ fl64 n := by
  have hn : n ≠ 0 := by omega
  have hlog : 53 ≤ n.log2 := (Nat.le_log2 hn).mpr h
  rw [fl64, if_neg (not_lt.mpr h)]
  simp only [jslog2_eq]
  exact Dvd.dvd.mul_left (dvd_pow_self 2 (by omega : n.log2 - 52 ≠ 0)) _

theorem fl64_ge {n : Nat} (h : 2 ^ 53 ≤ n) : 2 ^ 53 ≤ fl64 n := by
  have hn : n ≠ 0 := by omega
  have hlog : 53 ≤ n.log2 := (Nat.le_log2 hn).mpr h
  rw [fl64, if_neg (not_lt.mpr h)]
  simp only [jslog2_eq]
  have hq : 2 ^ 52 ≤ n / 2 ^ (n.log2 - 52) := by
    have h1 : 2 ^ n.log2 / 2 ^ (n.log2 - 52) ≤ n / 2 ^ (n.log2 - 52) :=
      Nat.div_le_div_right (Nat.log2_self_le hn)
    rwa [Nat.pow_div (by omega) (by norm_num),
      (by omega : n.log2 - (n.log2 - 52) = 52)] at h1
  have hmul : 2 ^ 52 * 2 ^ (n.log2 - 52) ≤ n / 2 ^ (n.log2 - 52) * 2 ^ (n.log2 - 52) :=
    Nat.mul_le_mul_right _ hq
  have hpow : 2 ^ 53 ≤ 2 ^ 52 * 2 ^ (n.log2 - 52) := by
    rw [← pow_add]
    exact Nat.pow_le_pow_right (by norm_num) (by omega)
  have hsplit : n / 2 ^ (n.log2 - 52) * 2 ^ (n.log2 - 52)
      ≤ (if 2 ^ (n.log2 - 52 - 1) < n % 2 ^ (n.log2 - 52)
            ∨ n % 2 ^ (n.log2 - 52) = 2 ^ (n.log2 - 52 - 1) ∧ n / 2 ^ (n.log2 - 52) % 2 = 1
          then n / 2 ^ (n.log2 - 52) + 1
          else n / 2 ^ (n.log2 - 52)) * 2 ^ (n.log2 - 52) := by
    split
    · exact Nat.mul_le_mul_right _ (Nat.le_succ _)
    · exact le_rfl
  calc 2 ^ 53 ≤ 2 ^ 52 * 2 ^ (n.log2 - 52) := hpow
    _ ≤ n / 2 ^ (n.log2 - 52) * 2 ^ (n.log2 - 52) := hmul
    _ ≤ _ := hsplit

theorem region_a_contra (s : Nat)
    (h1 : (s * 1103515245 + 12345) % 2147483648 = 2147483647)
    (h2 : s * 1103515245 + 12345 < 9007199254740992) : False := by
  have hs : s ≤ 8162278 := by clear h1; omega
  have hq : s * 1103515245 + 12345
      = (s * 1103515245 + 12345) / 2147483648 * 2147483648 + 2147483647 := by
    conv_lhs => rw [← Nat.div_add_mod (s * 1103515245 + 12345) 2147483648]
    rw [h1, Nat.mul_comm]
  set q := (s * 1103515245 + 12345) / 2147483648 with hqdef
  clear_value q
  clear h1 h2 hqdef
  have hz : (s : ℤ) * 1103515245 + 12345 = (q : ℤ) * 2147483648 + 2147483647 := by
    exact_mod_cast hq
  have hint : ((s : ℤ) * 1103515245 + 12345) - 2147483647 = 2147483648 * (q : ℤ) := by
    linarith
  have h3 : (2147483648 : ℤ) ∣ (((s : ℤ) * 1103515245 + 12345) - 2147483647) * 1857678181 :=
    Dvd.dvd.mul_right ⟨(q : ℤ), hint⟩ _
  have key : (((s : ℤ) * 1103515245 + 12345) - 2147483647) * 1857678181
      = ((s : ℤ) - 230538014) + 2147483648 * ((s : ℤ) * 954594553 - 1857667501) := by
    ring
  rw [key] at h3
  have h4 : (2147483648 : ℤ) ∣ (s : ℤ) - 230538014 := by
    obtain ⟨w, hw⟩ := h3
    exact ⟨w - ((s : ℤ) * 954594553 - 1857667501), by linarith⟩
  obtain ⟨k, hk⟩ := h4
  clear hq hz hint h3 key
  omega

theorem jsNextState_lt (s : Nat) : jsNextState s < m31 :=
  Nat.mod_lt _ (by norm_num [m31])

theorem jsNextState_ne_max (s : Nat) : jsNextState s ≠ m31 - 1 := by
  intro h
  have h2 : fl64 (fl64 (s * 1103515245) + 12345) % 2147483648 = 2147483647 := h
  clear h
  by_cases hbig : s * 1103515245 + 12345 < 9007199254740992
  · rw [fl64_of_lt (by omega : s * 1103515245 < 2 ^ 53),
      fl64_of_lt (by omega : s * 1103515245 + 12345 < 2 ^ 53)] at h2
    exact region_a_contra s h2 hbig
  · push_neg at hbig
    have heven : 2 ∣ fl64 (fl64 (s * 1103515245) + 12345) := by
      by_cases hsm : s * 1103515245 < 2 ^ 53
      · rw [fl64_of_lt hsm]
        exact fl64_even (by omega)
      · push_neg at hsm
        exact fl64_even (le_trans (fl64_ge hsm) (Nat.le_add_right _ _))
    have hctr : 2 ∣ (2147483647 : Nat) := by
      have hres : 2 ∣ fl64 (fl64 (s * 1103515245) + 12345) % 2147483648 :=
        (Nat.dvd_mod_iff (by norm_num)).mpr heven
      rwa [h2] at hres
    norm_num at hctr

theorem jsNextState_le (s : Nat) : jsNextState s ≤ m31 - 2 := by
  have h1 := jsNextState_lt s
  have h2 := jsNextState_ne_max s
  have e : m31 = 2147483648 := by norm_num [m31]
  omega

theorem jsShuffleIndex_le (st i : Nat) (h : st ≤ m31 - 2) :
    jsShuffleIndex st (i + 1) ≤ i := by
  have hpos : 0 < m31 - 1 := by norm_num [m31]
  have hlt : st * (i + 1) < (i + 1) * (m31 - 1) := by
    have h1 : st * (i + 1) ≤ (m31 - 2) * (i + 1) := Nat.mul_le_mul_right _ h
    have h2 : (m31 - 2) * (i + 1) < (m31 - 1) * (i + 1) := by
      have : m31 - 2 < m31 - 1 := by norm_num [m31]
      exact Nat.mul_lt_mul_of_lt_of_le this (le_refl _) (Nat.succ_pos i)
    calc st * (i + 1) ≤ (m31 - 2) * (i + 1) := h1
      _ < (m31 - 1) * (i + 1) := h2
      _ = (i + 1) * (m31 - 1) := Nat.mul_comm _ _
  exact Nat.lt_succ_iff.mp ((Nat.div_lt_iff_lt_mul hpos).mpr hlt)

/-- C8 (corrected): the value SeededRandom.next returns is the updated state
divided by 0x7fffffff = 2^31 - 1 (not 2^31); it lies in [0, 1), and the state
update agrees with the claimed LCG recurrence exactly when the product stays
below 2^53 (beyond that, double rounding perturbs it before the 31-bit
truncation); the shuffle index floor(next() * (i + 1)) never exceeds i, because
the updated state can never reach 2^31 - 1. -/
theorem c8_seeded_random_next (s : Nat) :
    jsNextVal s = (jsNextState s : ℚ) / ((m31 : ℚ) - 1)
    ∧ 0 ≤ jsNextVal s
    ∧ jsNextVal s < 1
    ∧ (s * lcgA + lcgC < 2 ^ 53 → jsNextState s = (s * lcgA + lcgC) % m31)
    ∧ (∀ i : Nat, jsShuffleIndex (jsNextState s) (i + 1) ≤ i) := by
  refine ⟨rfl, ?_, ?_, ?_, fun i => jsShuffleIndex_le _ _ (jsNextState_le s)⟩
  · exact div_nonneg (Nat.cast_nonneg _) (by norm_num [m31])
  · rw [jsNextVal, div_lt_one (by norm_num [m31])]
    have hle : jsNextState s ≤ m31 - 2 := jsNextState_le s
    have e : m31 = 2147483648 := by norm_num [m31]
    rw [e] at hle ⊢
    have : (jsNextState s : ℚ) ≤ ((2147483646 : Nat) : ℚ) := by
      exact_mod_cast hle
    norm_num at this ⊢
    linarith
  · intro h
    have h1 : s * 1103515245 < 2 ^ 53 := by
      have h' : s * 1103515245 + 12345 < 2 ^ 53 := h
      omega
    have h2 : s * 1103515245 + 12345 < 2 ^ 53 := h
    show fl64 (fl64 (s * lcgA) + lcgC) % m31 = (s * lcgA + lcgC) % m31
    rw [show s * lcgA = s * 1103515245 from rfl, show lcgC = 12345 from rfl,
      fl64_of_lt h1, fl64_of_lt h2]

/-- Witness for C8 at seed state 97 (the hash of the one-character seed a). -/
theorem c8_seeded_random_next_witness :
    97 * lcgA + lcgC < 2 ^ 53
    ∧ jsNextState 97 = (97 * lcgA + lcgC) % m31
    ∧ jsShuffleIndex (jsNextState 97) (3 + 1) ≤ 3 :=
  ⟨by decide, (c8_seeded_random_next 97).2.2.2.1 (by decide),
    (c8_seeded_random_next 97).2.2.2.2 3⟩

set_option maxRecDepth 10000 in
/-- Counterexample for C8 as stated: for the seed a (hash 97) the state after
one call matches the claimed recurrence, but the returned value is the state
divided by 2^31 - 1, not by 2^31; and for the seed hello (hash 99162322) even
the state recurrence differs, because the product exceeds 2^53 and is rounded
to double precision before truncation. -/
theorem c8_counterexample :
    hashString [97] = 97
    ∧ jsNextState 97 = (97 * 1103515245 + 12345) % 2 ^ 31
    ∧ jsNextVal 97 ≠ (jsNextState 97 : ℚ) / 2 ^ 31
    ∧ hashString [104, 101, 108, 108, 111] = 99162322
    ∧ jsNextState 99162322 ≠ (99162322 * 1103515245 + 12345) % 2 ^ 31 := by
  refine ⟨by decide, by decide, ?_, by decide, by decide⟩
  intro h
  rw [jsNextVal, show jsNextState 97 = 1814292358 from by decide,
    show m31 = 2147483648 from by decide] at h
  norm_num at h

/-! Permutation facts about the Fisher-Yates shuffle. -/

theorem cons_set_perm {α : Type} :
    ∀ (xs : List α) (j : Nat) (x b : α), xs[j]? = some b →
      List.Perm (b :: xs.set j x) (x :: xs)
  | [], j, x, b => by simp
  | y :: ys, 0, x, b => by
    intro h
    simp only [List.getElem?_cons_zero, Option.some_inj] at h
    show List.Perm (b :: x :: ys) (x :: y :: ys)
    rw [h]
    exact List.Perm.swap x b ys
  | y :: ys, j + 1, x, b => by
    intro h
    simp only [List.getElem?_cons_succ] at h
    have ih := cons_set_perm ys j x b h
    show List.Perm (b :: y :: ys.set j x) (x :: y :: ys)
    exact (List.Perm.swap y b _).trans ((ih.cons y).trans (List.Perm.swap x y ys))

theorem set_set_perm {α : Type} :
    ∀ (l : List α) (i j : Nat) (a b : α), l[i]? = some a → l[j]? = some b →
      List.Perm ((l.set i b).set j a) l
  | [], _, _, _, _ => by simp
  | x :: xs, 0, 0, a, b => by
    intro hi hj
    simp only [List.getElem?_cons_zero, Option.some_inj] at hi hj
    show List.Perm (a :: xs) (x :: xs)
    rw [hi]
  | x :: xs, 0, j + 1, a, b => by
    intro hi hj
    simp only [List.getElem?_cons_zero, Option.some_inj,
      List.getElem?_cons_succ] at hi hj
    show List.Perm (b :: xs.set j a) (x :: xs)
    rw [hi]
    exact cons_set_perm xs j a b hj
  | x :: xs, i + 1, 0, a, b => by
    intro hi hj
    simp only [List.getElem?_cons_zero, Option.some_inj,
      List.getElem?_cons_succ] at hi hj
    show List.Perm (a :: xs.set i b) (x :: xs)
    rw [hj]
    exact cons_set_perm xs i b a hi
  | x :: xs, i + 1, j + 1, a, b => by
    intro hi hj
    simp only [List.getElem?_cons_succ] at hi hj
    exact (set_set_perm xs i j a b hi hj).cons x

theorem swapL_perm {α : Type} (l : List α) (i j : Nat) :
    List.Perm (swapL l i j) l := by
  unfold swapL
  split
  · next a b hi hj => exact set_set_perm l i j a b hi hj
  · exact List.Perm.refl l

theorem shuffleGo_perm {α : Type} :
    ∀ (k : Nat) (l : List α) (st : Nat), List.Perm (shuffleGo l st k).1 l
  | 0, l, _ => List.Perm.refl l
  | k + 1, l, _ =>
    (shuffleGo_perm k _ _).trans (swapL_perm l (k + 1) _)

theorem shuffle_perm {α : Type} (l : List α) (st : Nat) :
    List.Perm (shuffle l st).1 l :=
  shuffleGo_perm _ l st

theorem shuffle_length {α : Type} (l : List α) (st : Nat) :
    (shuffle l st).1.length = l.length :=
  (shuffle_perm l st).length_eq

theorem shuffle_count {α : Type} [DecidableEq α] (a : α) (l : List α) (st : Nat) :
    List.count a (shuffle l st).1 = List.count a l :=
  (shuffle_perm l st).count_eq a

/-! Counting facts about the zip loop and the generator. -/

theorem buildRounds_length (sd1 sd2 rd1 rd2 : List SRChoice) (sts : List Nat) :
    ∀ (i a b : Nat), (buildRounds sd1 sd2 rd1 rd2 sts i a b).length = sts.length := by
  induction sts with
  | nil => intro i a b; rfl
  | cons st rest ih =>
    intro i a b
    rw [buildRounds]
    split
    · simpa using ih (i + 1) (a + 1) b
    · simpa using ih (i + 1) a (b + 1)

theorem buildRounds_count1 (sd1 sd2 rd1 rd2 : List SRChoice) (sts : List Nat) :
    ∀ (i a b : Nat),
      List.countP (fun r => r.trueState == 1) (buildRounds sd1 sd2 rd1 rd2 sts i a b)
        = List.count 1 sts := by
  induction sts with
  | nil => intro i a b; rfl
  | cons st rest ih =>
    intro i a b
    rw [buildRounds, List.count_cons]
    by_cases h : st = 1
    · rw [if_pos h]
      simp [List.countP_cons, ih (i + 1) (a + 1) b, h]
    · rw [if_neg h]
      simp [List.countP_cons, ih (i + 1) a (b + 1), h]

theorem buildRounds_count2 (sd1 sd2 rd1 rd2 : List SRChoice) (sts : List Nat) :
    ∀ (i a b : Nat),
      List.countP (fun r => r.trueState == 2) (buildRounds sd1 sd2 rd1 rd2 sts i a b)
          + List.count 1 sts
        = sts.length := by
  induction sts with
  | nil => intro i a b; rfl
  | cons st rest ih =>
    intro i a b
    rw [buildRounds, List.count_cons]
    by_cases h : st = 1
    · rw [if_pos h]
      have := ih (i + 1) (a + 1) b
      simp [List.countP_cons, h]
      omega
    · rw [if_neg h]
      have := ih (i + 1) a (b + 1)
      simp [List.countP_cons, h]
      omega

theorem jsRound_nonneg (q : ℚ) (h : 0 ≤ q) : 0 ≤ jsRound q := by
  rw [jsRound]
  positivity

theorem jsRound_le (n : Nat) (p : ℚ) (h1 : p ≤ 1) : jsRound ((n : ℚ) * p) ≤ n := by
  rw [jsRound]
  have hle : (n : ℚ) * p + 1 / 2 ≤ (n : ℚ) + 1 / 2 := by
    have : (n : ℚ) * p ≤ (n : ℚ) * 1 := by
      exact mul_le_mul_of_nonneg_left h1 (Nat.cast_nonneg n)
    linarith
  calc ⌊(n : ℚ) * p + 1 / 2⌋ ≤ ⌊(n : ℚ) + 1 / 2⌋ := Int.floor_le_floor hle
    _ = n := by
      rw [show ((n : ℚ) + 1 / 2) = 1 / 2 + ((n : ℤ) : ℚ) by push_cast; ring,
        Int.floor_add_int]
      norm_num

/-- C2: for every numRounds, probability p in [0, 1] and seed,
generateBalancedDefaults returns exactly numRounds entries, of which exactly
round(numRounds * p) have trueState 1 and the remaining
numRounds - round(numRounds * p) have trueState 2. -/
theorem c2_generate_balanced_states (numRounds : Nat) (p : ℚ) (seed : List Nat)
    (hp0 : 0 ≤ p) (hp1 : p ≤ 1) :
    (generateBalancedDefaults numRounds p seed).length = numRounds
    ∧ List.countP (fun r => r.trueState == 1) (generateBalancedDefaults numRounds p seed)
        = (jsRound ((numRounds : ℚ) * p)).toNat
    ∧ List.countP (fun r => r.trueState == 2) (generateBalancedDefaults numRounds p seed)
        = numRounds - (jsRound ((numRounds : ℚ) * p)).toNat := by
  have hn1le : (jsRound ((numRounds : ℚ) * p)).toNat ≤ numRounds := by
    have := jsRound_le numRounds p hp1
    omega
  simp only [generateBalancedDefaults]
  set n1 := (jsRound ((numRounds : ℚ) * p)).toNat with hn1
  set sts := (shuffle (List.replicate n1 1 ++ List.replicate (numRounds - n1) 2)
    (hashString seed)).1 with hsts
  have hc : List.count 1 sts = n1 := by
    rw [hsts, shuffle_count]
    simp [List.count_append, List.count_replicate]
  have hl : sts.length = numRounds := by
    rw [hsts, shuffle_length]
    simp only [List.length_append, List.length_replicate]
    omega
  refine ⟨?_, ?_, ?_⟩
  · rw [buildRounds_length, hl]
  · rw [buildRounds_count1, hc]
  · have h2 := buildRounds_count2
      (shuffle (balancedList (n1 / 2) (n1 - n1 / 2))
        (shuffle (List.replicate n1 1 ++ List.replicate (numRounds - n1) 2)
          (hashString seed)).2).1
      (shuffle (balancedList ((numRounds - n1) / 2) (numRounds - n1 - (numRounds - n1) / 2))
        (shuffle (balancedList (n1 / 2) (n1 - n1 / 2))
          (shuffle (List.replicate n1 1 ++ List.replicate (numRounds - n1) 2)
            (hashString seed)).2).2).1
      (shuffle (balancedList (n1 / 2) (n1 - n1 / 2))
        (shuffle (balancedList ((numRounds - n1) / 2) (numRounds - n1 - (numRounds - n1) / 2))
          (shuffle (balancedList (n1 / 2) (n1 - n1 / 2))
            (shuffle (List.replicate n1 1 ++ List.replicate (numRounds - n1) 2)
              (hashString seed)).2).2).2).1
      (shuffle (balancedList ((numRounds - n1) / 2) (numRounds - n1 - (numRounds - n1) / 2))
        (shuffle (balancedList (n1 / 2) (n1 - n1 / 2))
          (shuffle (balancedList ((numRounds - n1) / 2) (numRounds - n1 - (numRounds - n1) / 2))
            (shuffle (balancedList (n1 / 2) (n1 - n1 / 2))
              (shuffle (List.replicate n1 1 ++ List.replicate (numRounds - n1) 2)
                (hashString seed)).2).2).2).2).1
      sts 0 0 0
    rw [hc, hl] at h2
    omega

/-- Witness for C2 at numRounds 4, p one half, and the one-character seed a. -/
theorem c2_generate_balanced_states_witness :
    (generateBalancedDefaults 4 (1 / 2) [97]).length = 4
    ∧ List.countP (fun r => r.trueState == 1) (generateBalancedDefaults 4 (1 / 2) [97])
        = (jsRound ((4 : ℚ) * (1 / 2))).toNat
    ∧ List.countP (fun r => r.trueState == 2) (generateBalancedDefaults 4 (1 / 2) [97])
        = 4 - (jsRound ((4 : ℚ) * (1 / 2))).toNat :=
  c2_generate_balanced_states 4 (1 / 2) [97] one_half_pos.le one_half_lt_one.le

theorem countP_not1 (l : List Nat) :
    List.countP (fun st => !(st == 1)) l + List.count 1 l = l.length := by
  induction l with
  | nil => rfl
  | cons x xs ih =>
    by_cases h : x = 1 <;> simp [List.countP_cons, List.count_cons, h] <;> omega

theorem countP_replicate {α : Type} (p : α → Bool) (n : Nat) (a : α) :
    List.countP p (List.replicate n a) = if p a then n else 0 := by
  induction n with
  | zero => simp
  | succ k ih =>
    rw [List.replicate_succ, List.countP_cons, ih]
    split <;> omega

theorem buildRounds_b1s (sd1 sd2 rd1 rd2 : List SRChoice) (sts : List Nat) :
    ∀ (i a b : Nat), a + List.count 1 sts ≤ sd1.length →
      List.map (fun r => r.senderDefault)
        (List.filter (fun r => r.trueState == 1) (buildRounds sd1 sd2 rd1 rd2 sts i a b))
      = List.map some (List.take (List.count 1 sts) (List.drop a sd1)) := by
  induction sts with
  | nil => intro i a b _; simp [buildRounds]
  | cons st rest ih =>
    intro i a b hbound
    rw [buildRounds]
    by_cases h : st = 1
    · have hcnt : List.count 1 (st :: rest) = List.count 1 rest + 1 := by
        simp [List.count_cons, h]
      rw [if_pos h]
      rw [hcnt] at hbound ⊢
      have ha : a < sd1.length := by omega
      rw [List.filter_cons_of_pos (by simp), List.map_cons,
        List.drop_eq_getElem_cons ha, List.take_succ_cons, List.map_cons,
        List.getElem?_eq_getElem ha]
      exact congrArg _ (ih (i + 1) (a + 1) b (by omega))
    · have hcnt : List.count 1 (st :: rest) = List.count 1 rest := by
        simp [List.count_cons, h]
      rw [if_neg h]
      rw [hcnt] at hbound ⊢
      rw [List.filter_cons_of_neg (by simp)]
      exact ih (i + 1) a (b + 1) hbound

theorem buildRounds_b1r (sd1 sd2 rd1 rd2 : List SRChoice) (sts : List Nat) :
    ∀ (i a b : Nat), a + List.count 1 sts ≤ rd1.length →
      List.map (fun r => r.receiverDefault)
        (List.filter (fun r => r.trueState == 1) (buildRounds sd1 sd2 rd1 rd2 sts i a b))
      = List.map some (List.take (List.count 1 sts) (List.drop a rd1)) := by
  induction sts with
  | nil => intro i a b _; simp [buildRounds]
  | cons st rest ih =>
    intro i a b hbound
    rw [buildRounds]
    by_cases h : st = 1
    · have hcnt : List.count 1 (st :: rest) = List.count 1 rest + 1 := by
        simp [List.count_cons, h]
      rw [if_pos h]
      rw [hcnt] at hbound ⊢
      have ha : a < rd1.length := by omega
      rw [List.filter_cons_of_pos (by simp), List.map_cons,
        List.drop_eq_getElem_cons ha, List.take_succ_cons, List.map_cons,
        List.getElem?_eq_getElem ha]
      exact congrArg _ (ih (i + 1) (a + 1) b (by omega))
    · have hcnt : List.count 1 (st :: rest) = List.count 1 rest := by
        simp [List.count_cons, h]
      rw [if_neg h]
      rw [hcnt] at hbound ⊢
      rw [List.filter_cons_of_neg (by simp)]
      exact ih (i + 1) a (b + 1) hbound

theorem buildRounds_b2s (sd1 sd2 rd1 rd2 : List SRChoice) (sts : List Nat) :
    ∀ (i a b : Nat), b + List.countP (fun st => !(st == 1)) sts ≤ sd2.length →
      List.map (fun r => r.senderDefault)
        (List.filter (fun r => r.trueState == 2) (buildRounds sd1 sd2 rd1 rd2 sts i a b))
      = List.map some (List.take (List.countP (fun st => !(st == 1)) sts) (List.drop b sd2)) := by
  induction sts with
  | nil => intro i a b _; simp [buildRounds]
  | cons st rest ih =>
    intro i a b hbound
    rw [buildRounds]
    by_cases h : st = 1
    · have hcnt : List.countP (fun st => !(st == 1)) (st :: rest)
          = List.countP (fun st => !(st == 1)) rest := by
        simp [List.countP_cons, h]
      rw [if_pos h]
      rw [hcnt] at hbound ⊢
      rw [List.filter_cons_of_neg (by simp)]
      exact ih (i + 1) (a + 1) b hbound
    · have hcnt : List.countP (fun st => !(st == 1)) (st :: rest)
          = List.countP (fun st => !(st == 1)) rest + 1 := by
        simp [List.countP_cons, h]
      rw [if_neg h]
      rw [hcnt] at hbound ⊢
      have hb : b < sd2.length := by omega
      rw [List.filter_cons_of_pos (by simp), List.map_cons,
        List.drop_eq_getElem_cons hb, List.take_succ_cons, List.map_cons,
        List.getElem?_eq_getElem hb]
      exact congrArg _ (ih (i + 1) a (b + 1) (by omega))

theorem buildRounds_b2r (sd1 sd2 rd1 rd2 : List SRChoice) (sts : List Nat) :
    ∀ (i a b : Nat), b + List.countP (fun st => !(st == 1)) sts ≤ rd2.length →
      List.map (fun r => r.receiverDefault)
        (List.filter (fun r => r.trueState == 2) (buildRounds sd1 sd2 rd1 rd2 sts i a b))
      = List.map some (List.take (List.countP (fun st => !(st == 1)) sts) (List.drop b rd2)) := by
  induction sts with
  | nil => intro i a b _; simp [buildRounds]
  | cons st rest ih =>
    intro i a b hbound
    rw [buildRounds]
    by_cases h : st = 1
    · have hcnt : List.countP (fun st => !(st == 1)) (st :: rest)
          = List.countP (fun st => !(st == 1)) rest := by
        simp [List.countP_cons, h]
      rw [if_pos h]
      rw [hcnt] at hbound ⊢
      rw [List.filter_cons_of_neg (by simp)]
      exact ih (i + 1) (a + 1) b hbound
    · have hcnt : List.countP (fun st => !(st == 1)) (st :: rest)
          = List.countP (fun st => !(st == 1)) rest + 1 := by
        simp [List.countP_cons, h]
      rw [if_neg h]
      rw [hcnt] at hbound ⊢
      have hb : b < rd2.length := by omega
      rw [List.filter_cons_of_pos (by simp), List.map_cons,
        List.drop_eq_getElem_cons hb, List.take_succ_cons, List.map_cons,
        List.getElem?_eq_getElem hb]
      exact congrArg _ (ih (i + 1) a (b + 1) (by omega))


theorem defaultCount_eq (g : List RoundDefaults) (ts : Nat)
    (proj : RoundDefaults → Option SRChoice) (c : SRChoice) (src : List SRChoice)
    (h : List.map proj (List.filter (fun r => r.trueState == ts) g) = List.map some src) :
    defaultCount g ts proj c = List.countP (fun x => x == c) src := by
  rw [defaultCount]
  have h1 : List.countP (fun r => proj r == some c)
        (List.filter (fun r => r.trueState == ts) g)
      = List.countP (fun o => o == some c)
        (List.map proj (List.filter (fun r => r.trueState == ts) g)) :=
    (List.countP_map (fun o => o == some c) proj
      (List.filter (fun r => r.trueState == ts) g)).symm
  rw [h1, h, List.countP_map]
  apply List.countP_congr
  intro a _
  cases a <;> cases c <;> rfl

theorem count_balancedList_A (na nb : Nat) :
    List.count SRChoice.A (balancedList na nb) = na := by
  simp [balancedList, List.count_append, List.count_replicate]

theorem count_balancedList_B (na nb : Nat) :
    List.count SRChoice.B (balancedList na nb) = nb := by
  simp [balancedList, List.count_append, List.count_replicate]

theorem length_balancedList (na nb : Nat) :
    (balancedList na nb).length = na + nb := by
  simp [balancedList]

/-- C7: for every numRounds, probability p in [0, 1] and seed, within the
trueState-1 bucket the sender defaults split between A and B with a count
difference of at most 1, and the same holds for the receiver defaults and for
both kinds of defaults within the trueState-2 bucket. -/
theorem c7_generate_balanced_defaults (numRounds : Nat) (p : ℚ) (seed : List Nat)
    (hp0 : 0 ≤ p) (hp1 : p ≤ 1) :
    (defaultCount (generateBalancedDefaults numRounds p seed) 1 (fun r => r.senderDefault) .A
        ≤ defaultCount (generateBalancedDefaults numRounds p seed) 1 (fun r => r.senderDefault) .B + 1
      ∧ defaultCount (generateBalancedDefaults numRounds p seed) 1 (fun r => r.senderDefault) .B
        ≤ defaultCount (generateBalancedDefaults numRounds p seed) 1 (fun r => r.senderDefault) .A + 1)
    ∧ (defaultCount (generateBalancedDefaults numRounds p seed) 1 (fun r => r.receiverDefault) .A
        ≤ defaultCount (generateBalancedDefaults numRounds p seed) 1 (fun r => r.receiverDefault) .B + 1
      ∧ defaultCount (generateBalancedDefaults numRounds p seed) 1 (fun r => r.receiverDefault) .B
        ≤ defaultCount (generateBalancedDefaults numRounds p seed) 1 (fun r => r.receiverDefault) .A + 1)
    ∧ (defaultCount (generateBalancedDefaults numRounds p seed) 2 (fun r => r.senderDefault) .A
        ≤ defaultCount (generateBalancedDefaults numRounds p seed) 2 (fun r => r.senderDefault) .B + 1
      ∧ defaultCount (generateBalancedDefaults numRounds p seed) 2 (fun r => r.senderDefault) .B
        ≤ defaultCount (generateBalancedDefaults numRounds p seed) 2 (fun r => r.senderDefault) .A + 1)
    ∧ (defaultCount (generateBalancedDefaults numRounds p seed) 2 (fun r => r.receiverDefault) .A
        ≤ defaultCount (generateBalancedDefaults numRounds p seed) 2 (fun r => r.receiverDefault) .B + 1
      ∧ defaultCount (generateBalancedDefaults numRounds p seed) 2 (fun r => r.receiverDefault) .B
        ≤ defaultCount (generateBalancedDefaults numRounds p seed) 2 (fun r => r.receiverDefault) .A + 1) := by
  have hn1le : (jsRound ((numRounds : ℚ) * p)).toNat ≤ numRounds := by
    have := jsRound_le numRounds p hp1
    omega
  simp only [generateBalancedDefaults]
  set n1 := (jsRound ((numRounds : ℚ) * p)).toNat with hn1def
  set pr1 := shuffle (List.replicate n1 1 ++ List.replicate (numRounds - n1) 2)
    (hashString seed) with hpr1
  set pr2 := shuffle (balancedList (n1 / 2) (n1 - n1 / 2)) pr1.2 with hpr2
  set pr3 := shuffle (balancedList ((numRounds - n1) / 2)
    (numRounds - n1 - (numRounds - n1) / 2)) pr2.2 with hpr3
  set pr4 := shuffle (balancedList (n1 / 2) (n1 - n1 / 2)) pr3.2 with hpr4
  set pr5 := shuffle (balancedList ((numRounds - n1) / 2)
    (numRounds - n1 - (numRounds - n1) / 2)) pr4.2 with hpr5
  have hc1 : List.count 1 pr1.1 = n1 := by
    rw [hpr1, shuffle_count]
    simp [List.count_append, List.count_replicate]
  have hlen : pr1.1.length = numRounds := by
    rw [hpr1, shuffle_length]
    simp only [List.length_append, List.length_replicate]
    omega
  have hc2 : List.countP (fun st => !(st == 1)) pr1.1 = numRounds - n1 := by
    have := countP_not1 pr1.1
    omega
  have hl2 : pr2.1.length = n1 := by
    rw [hpr2, shuffle_length, length_balancedList]
    omega
  have hl3 : pr3.1.length = numRounds - n1 := by
    rw [hpr3, shuffle_length, length_balancedList]
    omega
  have hl4 : pr4.1.length = n1 := by
    rw [hpr4, shuffle_length, length_balancedList]
    omega
  have hl5 : pr5.1.length = numRounds - n1 := by
    rw [hpr5, shuffle_length, length_balancedList]
    omega
  have hm1 := buildRounds_b1s pr2.1 pr3.1 pr4.1 pr5.1 pr1.1 0 0 0 (by omega)
  have hm2 := buildRounds_b1r pr2.1 pr3.1 pr4.1 pr5.1 pr1.1 0 0 0 (by omega)
  have hm3 := buildRounds_b2s pr2.1 pr3.1 pr4.1 pr5.1 pr1.1 0 0 0 (by omega)
  have hm4 := buildRounds_b2r pr2.1 pr3.1 pr4.1 pr5.1 pr1.1 0 0 0 (by omega)
  rw [hc1, List.drop_zero] at hm1 hm2
  rw [hc2, List.drop_zero] at hm3 hm4
  rw [show n1 = pr2.1.length from hl2.symm, List.take_length] at hm1
  rw [show n1 = pr4.1.length from hl4.symm, List.take_length] at hm2
  rw [show numRounds - n1 = pr3.1.length from hl3.symm, List.take_length] at hm3
  rw [show numRounds - n1 = pr5.1.length from hl5.symm, List.take_length] at hm4
  have e1A := defaultCount_eq _ 1 (fun r => r.senderDefault) .A pr2.1 hm1
  have e1B := defaultCount_eq _ 1 (fun r => r.senderDefault) .B pr2.1 hm1
  have e2A := defaultCount_eq _ 1 (fun r => r.receiverDefault) .A pr4.1 hm2
  have e2B := defaultCount_eq _ 1 (fun r => r.receiverDefault) .B pr4.1 hm2
  have e3A := defaultCount_eq _ 2 (fun r => r.senderDefault) .A pr3.1 hm3
  have e3B := defaultCount_eq _ 2 (fun r => r.senderDefault) .B pr3.1 hm3
  have e4A := defaultCount_eq _ 2 (fun r => r.receiverDefault) .A pr5.1 hm4
  have e4B := defaultCount_eq _ 2 (fun r => r.receiverDefault) .B pr5.1 hm4
  have cnt2A : List.countP (fun x => x == SRChoice.A) pr2.1 = n1 / 2 := by
    have : List.count SRChoice.A pr2.1 = n1 / 2 := by
      rw [hpr2, shuffle_count, count_balancedList_A]
    exact this
  have cnt2B : List.countP (fun x => x == SRChoice.B) pr2.1 = n1 - n1 / 2 := by
    have : List.count SRChoice.B pr2.1 = n1 - n1 / 2 := by
      rw [hpr2, shuffle_count, count_balancedList_B]
    exact this
  have cnt4A : List.countP (fun x => x == SRChoice.A) pr4.1 = n1 / 2 := by
    have : List.count SRChoice.A pr4.1 = n1 / 2 := by
      rw [hpr4, shuffle_count, count_balancedList_A]
    exact this
  have cnt4B : List.countP (fun x => x == SRChoice.B) pr4.1 = n1 - n1 / 2 := by
    have : List.count SRChoice.B pr4.1 = n1 - n1 / 2 := by
      rw [hpr4, shuffle_count, count_balancedList_B]
    exact this
  have cnt3A : List.countP (fun x => x == SRChoice.A) pr3.1 = (numRounds - n1) / 2 := by
    have : List.count SRChoice.A pr3.1 = (numRounds - n1) / 2 := by
      rw [hpr3, shuffle_count, count_balancedList_A]
    exact this
  have cnt3B : List.countP (fun x => x == SRChoice.B) pr3.1
      = numRounds - n1 - (numRounds - n1) / 2 := by
    have : List.count SRChoice.B pr3.1 = numRounds - n1 - (numRounds - n1) / 2 := by
      rw [hpr3, shuffle_count, count_balancedList_B]
    exact this
  have cnt5A : List.countP (fun x => x == SRChoice.A) pr5.1 = (numRounds - n1) / 2 := by
    have : List.count SRChoice.A pr5.1 = (numRounds - n1) / 2 := by
      rw [hpr5, shuffle_count, count_balancedList_A]
    exact this
  have cnt5B : List.countP (fun x => x == SRChoice.B) pr5.1
      = numRounds - n1 - (numRounds - n1) / 2 := by
    have : List.count SRChoice.B pr5.1 = numRounds - n1 - (numRounds - n1) / 2 := by
      rw [hpr5, shuffle_count, count_balancedList_B]
    exact this
  rw [e1A, e1B, e2A, e2B, e3A, e3B, e4A, e4B,
    cnt2A, cnt2B, cnt3A, cnt3B, cnt4A, cnt4B, cnt5A, cnt5B]
  omega

/-- Witness for C7 at numRounds 4, p one half, and the one-character seed a. -/
theorem c7_generate_balanced_defaults_witness :
    defaultCount (generateBalancedDefaults 4 (1 / 2) [97]) 1 (fun r => r.senderDefault) .A
      ≤ defaultCount (generateBalancedDefaults 4 (1 / 2) [97]) 1 (fun r => r.senderDefault) .B + 1 :=
  (c7_generate_balanced_defaults 4 (1 / 2) [97] one_half_pos.le one_half_lt_one.le).1.1



/-! Dispatch lemmas: how submitAction reduces once the role and round guards
are settled. -/

theorem submitAction_not_player (config : SRConfig) (stageId u : List Nat)
    (hist : Option Role) (now : Nat) (a : ActionKind) (payload : Payload)
    (pd : PublicData) (ha : a ≠ .assign_role)
    (h : ¬(pd.senderId = some u ∨ pd.receiverId = some u)) :
    submitAction config stageId u hist now a payload pd
      = .error .permissionDeniedNotPlayer := by
  cases a
  case assign_role => exact absurd rfl ha
  all_goals simp only [submitAction]
  all_goals rw [if_neg h]

theorem submitAction_round_missing (config : SRConfig) (stageId u : List Nat)
    (hist : Option Role) (now : Nat) (a : ActionKind) (payload : Payload)
    (pd : PublicData) (ha : a ≠ .assign_role)
    (hrole : pd.senderId = some u ∨ pd.receiverId = some u)
    (hrd : pd.roundMap pd.currentRound = none) :
    submitAction config stageId u hist now a payload pd
      = .error .stateConflictRoundMissing := by
  cases a
  case assign_role => exact absurd rfl ha
  all_goals simp only [submitAction]
  all_goals rw [if_pos hrole, hrd]

theorem submitAction_start_game (config : SRConfig) (stageId u : List Nat)
    (hist : Option Role) (now : Nat) (payload : Payload) (pd : PublicData)
    (rd : RoundData) (hrole : pd.senderId = some u ∨ pd.receiverId = some u)
    (hrd : pd.roundMap pd.currentRound = some rd) :
    submitAction config stageId u hist now .start_game payload pd
      = handleStartGame u rd now pd := by
  simp only [submitAction]
  rw [if_pos hrole, hrd]

theorem submitAction_sender_signal (config : SRConfig) (stageId u : List Nat)
    (hist : Option Role) (now : Nat) (payload : Payload) (pd : PublicData)
    (rd : RoundData) (hrole : pd.senderId = some u ∨ pd.receiverId = some u)
    (hrd : pd.roundMap pd.currentRound = some rd) :
    submitAction config stageId u hist now .sender_signal payload pd
      = handleSenderSignal config stageId u payload rd now pd := by
  simp only [submitAction]
  rw [if_pos hrole, hrd]

theorem submitAction_receiver_saw_message (config : SRConfig) (stageId u : List Nat)
    (hist : Option Role) (now : Nat) (payload : Payload) (pd : PublicData)
    (rd : RoundData) (hrole : pd.senderId = some u ∨ pd.receiverId = some u)
    (hrd : pd.roundMap pd.currentRound = some rd) :
    submitAction config stageId u hist now .receiver_saw_message payload pd
      = handleReceiverSawMessage u rd now pd := by
  simp only [submitAction]
  rw [if_pos hrole, hrd]

theorem submitAction_receiver_choice (config : SRConfig) (stageId u : List Nat)
    (hist : Option Role) (now : Nat) (payload : Payload) (pd : PublicData)
    (rd : RoundData) (hrole : pd.senderId = some u ∨ pd.receiverId = some u)
    (hrd : pd.roundMap pd.currentRound = some rd) :
    submitAction config stageId u hist now .receiver_choice payload pd
      = handleReceiverChoice config stageId u payload rd now pd := by
  simp only [submitAction]
  rw [if_pos hrole, hrd]

theorem submitAction_next_round (config : SRConfig) (stageId u : List Nat)
    (hist : Option Role) (now : Nat) (payload : Payload) (pd : PublicData)
    (rd : RoundData) (hrole : pd.senderId = some u ∨ pd.receiverId = some u)
    (hrd : pd.roundMap pd.currentRound = some rd) :
    submitAction config stageId u hist now .next_round payload pd
      = handleNextRound config stageId u rd now pd := by
  simp only [submitAction]
  rw [if_pos hrole, hrd]

theorem setRound_same (m : Nat → Option RoundData) (k : Nat) (v : RoundData) :
    setRound m k v k = some v := by
  simp [setRound]

theorem setRound_other (m : Nat → Option RoundData) (k n : Nat) (v : RoundData)
    (h : n ≠ k) : setRound m k v n = m n := by
  simp [setRound, h]

/-- C3: the payoff rule applied by receiver_choice: a null recorded senderChoice
zeroes both payoffs; choice A pays the fixed A pair regardless of the hidden
state; choice B pays the B1 pair in state 1 and the B2 pair in state 2; on a
recorded (non-null) senderChoice it agrees with calculatePayoffs; and with the
Scenario B config, choice B under trueState 1 pays sender 0 and receiver 36. -/
theorem c3_payoff_engine (config : SRConfig) (sc choice : SRChoice) (ts : Nat) :
    receiverPayoffCalc config none choice ts = (0, 0)
    ∧ receiverPayoffCalc config (some sc) .A ts
        = (config.payoffSenderChoiceA, config.payoffReceiverChoiceA)
    ∧ receiverPayoffCalc config (some sc) .B 1
        = (config.payoffSenderChoiceB1, config.payoffReceiverChoiceB1)
    ∧ receiverPayoffCalc config (some sc) .B 2
        = (config.payoffSenderChoiceB2, config.payoffReceiverChoiceB2)
    ∧ receiverPayoffCalc config (some sc) choice ts = calculatePayoffs choice ts config
    ∧ receiverPayoffCalc wCfg (some sc) .B 1 = (0, 36) := by
  refine ⟨rfl, rfl, rfl, rfl, rfl, rfl⟩

/-- C10: a sender_signal whose payload carries no senderChoice succeeds, records
senderChoice as null and still moves the round to WAITING_RECEIVER_DECIDE;
only receiver_choice rejects a missing choice with InvalidArgument. -/
theorem c10_missing_choice (config : SRConfig) (stageId u v : List Nat)
    (hist : Option Role) (now : Nat) (payload payload2 : Payload)
    (pd : PublicData) (rd : RoundData) :
    (pd.senderId = some u → pd.roundMap pd.currentRound = some rd →
      rd.status = .WAITING_SENDER_DECIDE → payload.senderChoice = none →
      ∃ pd2 rd2,
        submitAction config stageId u hist now .sender_signal payload pd = .ok pd2
        ∧ pd2.roundMap pd.currentRound = some rd2
        ∧ rd2.senderChoice = none
        ∧ rd2.status = .WAITING_RECEIVER_DECIDE
        ∧ pd2.currentRound = pd.currentRound)
    ∧ (pd.receiverId = some v → pd.roundMap pd.currentRound = some rd →
      rd.status = .WAITING_RECEIVER_DECIDE → payload2.receiverChoice = none →
      submitAction config stageId v hist now .receiver_choice payload2 pd
        = .error .invalidArgumentMissingChoice) := by
  constructor
  · intro hs hrd hst hch
    rw [submitAction_sender_signal config stageId u hist now payload pd rd
      (Or.inl hs) hrd]
    rw [handleSenderSignal, if_neg (by simp [hs]), if_neg (by simp [hst])]
    refine ⟨_, _, rfl, setRound_same _ _ _, ?_, rfl, rfl⟩
    simpa using hch
  · intro hv hrd hst hch
    rw [submitAction_receiver_choice config stageId v hist now payload2 pd rd
      (Or.inr hv) hrd]
    rw [handleReceiverChoice, if_neg (by simp [hv]), if_neg (by simp [hst]), hch]

/-- Witness for C10 on the concrete fixture instance. -/
theorem c10_missing_choice_witness :
    ∃ pd2 rd2,
      submitAction wCfg wSid wSender none 0 .sender_signal {}
          (wPd .WAITING_SENDER_DECIDE) = .ok pd2
      ∧ pd2.roundMap (wPd .WAITING_SENDER_DECIDE).currentRound = some rd2
      ∧ rd2.senderChoice = none
      ∧ rd2.status = .WAITING_RECEIVER_DECIDE
      ∧ pd2.currentRound = (wPd .WAITING_SENDER_DECIDE).currentRound :=
  (c10_missing_choice wCfg wSid wSender wReceiver none 0 {} {}
    (wPd .WAITING_SENDER_DECIDE) (wRound .WAITING_SENDER_DECIDE)).1
    rfl rfl rfl rfl



/-! Per-handler evolution lemmas for the temporal claims. -/

theorem roundEvolves_refl (r : RoundData) : roundEvolves r r :=
  ⟨le_rfl, fun h => ⟨rfl, rfl, rfl, rfl, h⟩, Or.inl ⟨rfl, rfl⟩⟩

theorem roundEvolves_trans {r1 r2 r3 : RoundData}
    (h12 : roundEvolves r1 r2) (h23 : roundEvolves r2 r3) : roundEvolves r1 r3 := by
  obtain ⟨ha1, hb1, hc1⟩ := h12
  obtain ⟨ha2, hb2, hc2⟩ := h23
  refine ⟨le_trans ha1 ha2, ?_, ?_⟩
  · intro hfb
    obtain ⟨e1, e2, e3, e4, e5⟩ := hb1 hfb
    obtain ⟨f1, f2, f3, f4, f5⟩ := hb2 e5
    exact ⟨f1.trans e1, f2.trans e2, f3.trans e3, f4.trans e4, f5⟩
  · rcases hc1 with ⟨c1, c2⟩ | ⟨c1, c2⟩
    · rcases hc2 with ⟨d1, d2⟩ | ⟨d1, d2⟩
      · exact Or.inl ⟨d1.trans c1, d2.trans c2⟩
      · exact Or.inr ⟨d1, d2⟩
    · rcases hc2 with ⟨d1, d2⟩ | ⟨d1, d2⟩
      · exact Or.inr ⟨d1 ▸ c1, d2 ▸ c2⟩
      · exact Or.inr ⟨d1, d2⟩

theorem handleStartGame_evolves (u : List Nat) (rd : RoundData) (now : Nat)
    (pd : PublicData) (hrd : pd.roundMap pd.currentRound = some rd)
    (n : Nat) (rdn : RoundData) (h : pd.roundMap n = some rdn) :
    ∃ res, handleStartGame u rd now pd = .ok res
      ∧ ∃ rdn2, res.roundMap n = some rdn2 ∧ roundEvolves rdn rdn2 := by
  rw [handleStartGame]
  by_cases hst : rd.status ≠ .WAITING_BOTH_START
  · rw [if_pos hst]
    exact ⟨pd, rfl, rdn, h, roundEvolves_refl rdn⟩
  · rw [if_neg hst]
    push_neg at hst
    by_cases hn : n = pd.currentRound
    · subst hn
      have hrdn : rd = rdn := by
        rw [h] at hrd
        exact (Option.some_inj.mp hrd).symm
      subst hrdn
      refine ⟨_, rfl, _, setRound_same _ _ _, ?_, ?_, ?_⟩
      · rw [hst]
        exact Nat.zero_le _
      · intro hfb
        rw [hst] at hfb
        exact absurd hfb (by simp)
      · refine Or.inl ⟨?_, ?_⟩ <;> (repeat' split) <;> rfl
    · refine ⟨_, rfl, rdn, ?_, roundEvolves_refl rdn⟩
      exact (setRound_other pd.roundMap pd.currentRound n _ hn).trans h

theorem handleReceiverSawMessage_evolves (u : List Nat) (rd : RoundData) (now : Nat)
    (pd : PublicData) (hrd : pd.roundMap pd.currentRound = some rd)
    (n : Nat) (rdn : RoundData) (h : pd.roundMap n = some rdn) :
    ∃ res, handleReceiverSawMessage u rd now pd = .ok res
      ∧ ∃ rdn2, res.roundMap n = some rdn2 ∧ roundEvolves rdn rdn2 := by
  rw [handleReceiverSawMessage]
  by_cases h1 : pd.receiverId ≠ some u
  · rw [if_pos h1]
    exact ⟨pd, rfl, rdn, h, roundEvolves_refl rdn⟩
  · rw [if_neg h1]
    by_cases h2 : rd.status ≠ .WAITING_RECEIVER_DECIDE
    · rw [if_pos h2]
      exact ⟨pd, rfl, rdn, h, roundEvolves_refl rdn⟩
    · rw [if_neg h2]
      push_neg at h2
      by_cases h3 : rd.receiverSawMessageTime.isSome
      · rw [if_pos h3]
        exact ⟨pd, rfl, rdn, h, roundEvolves_refl rdn⟩
      · rw [if_neg h3]
        by_cases hn : n = pd.currentRound
        · subst hn
          have hrdn : rd = rdn := by
            rw [h] at hrd
            exact (Option.some_inj.mp hrd).symm
          subst hrdn
          refine ⟨_, rfl, _, setRound_same _ _ _, le_rfl, ?_, Or.inl ⟨rfl, rfl⟩⟩
          intro hfb
          rw [h2] at hfb
          exact absurd hfb (by simp)
        · refine ⟨_, rfl, rdn, ?_, roundEvolves_refl rdn⟩
          exact (setRound_other pd.roundMap pd.currentRound n _ hn).trans h


theorem handleSenderSignal_evolves (config : SRConfig) (stageId u : List Nat)
    (payload : Payload) (rd : RoundData) (now : Nat) (pd : PublicData)
    (hrd : pd.roundMap pd.currentRound = some rd) (n : Nat) (rdn : RoundData)
    (h : pd.roundMap n = some rdn) :
    ∃ rdn2, (storedOf pd (handleSenderSignal config stageId u payload rd now pd)).roundMap n
        = some rdn2 ∧ roundEvolves rdn rdn2 := by
  rw [handleSenderSignal]
  by_cases h1 : pd.senderId ≠ some u
  · rw [if_pos h1]
    exact ⟨rdn, h, roundEvolves_refl rdn⟩
  · rw [if_neg h1]
    by_cases h2 : rd.status ≠ .WAITING_SENDER_DECIDE
    · rw [if_pos h2]
      exact ⟨rdn, h, roundEvolves_refl rdn⟩
    · rw [if_neg h2]
      push_neg at h2
      by_cases hn : n = pd.currentRound
      · subst hn
        have hrdn : rd = rdn := by
          rw [h] at hrd
          exact (Option.some_inj.mp hrd).symm
        subst hrdn
        refine ⟨_, setRound_same _ _ _, ?_, ?_, ?_⟩
        · rw [h2]
          show statusRank RoundStatus.WAITING_SENDER_DECIDE
            ≤ statusRank RoundStatus.WAITING_RECEIVER_DECIDE
          decide
        · intro hfb
          rw [h2] at hfb
          exact absurd hfb (by decide)
        · by_cases hzf : config.requireParticipantClick ∧ payload.isTimedOut = some true
          · refine Or.inr ⟨?_, ?_⟩
            · show (if config.requireParticipantClick ∧ payload.isTimedOut = some true
                  then some 0 else rd.senderPayoff).isSome = true
              rw [if_pos hzf]
              rfl
            · show (if config.requireParticipantClick ∧ payload.isTimedOut = some true
                  then some 0 else rd.receiverPayoff).isSome = true
              rw [if_pos hzf]
              rfl
          · refine Or.inl ⟨?_, ?_⟩
            · show (if config.requireParticipantClick ∧ payload.isTimedOut = some true
                  then some 0 else rd.senderPayoff) = rd.senderPayoff
              rw [if_neg hzf]
            · show (if config.requireParticipantClick ∧ payload.isTimedOut = some true
                  then some 0 else rd.receiverPayoff) = rd.receiverPayoff
              rw [if_neg hzf]
      · refine ⟨rdn, ?_, roundEvolves_refl rdn⟩
        exact (setRound_other pd.roundMap pd.currentRound n _ hn).trans h

theorem handleReceiverChoice_evolves (config : SRConfig) (stageId u : List Nat)
    (payload : Payload) (rd : RoundData) (now : Nat) (pd : PublicData)
    (hrd : pd.roundMap pd.currentRound = some rd) (n : Nat) (rdn : RoundData)
    (h : pd.roundMap n = some rdn) :
    ∃ rdn2, (storedOf pd (handleReceiverChoice config stageId u payload rd now pd)).roundMap n
        = some rdn2 ∧ roundEvolves rdn rdn2 := by
  rw [handleReceiverChoice]
  by_cases h1 : pd.receiverId ≠ some u
  · rw [if_pos h1]
    exact ⟨rdn, h, roundEvolves_refl rdn⟩
  · rw [if_neg h1]
    by_cases h2 : rd.status ≠ .WAITING_RECEIVER_DECIDE
    · rw [if_pos h2]
      exact ⟨rdn, h, roundEvolves_refl rdn⟩
    · rw [if_neg h2]
      push_neg at h2
      cases hch : payload.receiverChoice with
      | none => exact ⟨rdn, h, roundEvolves_refl rdn⟩
      | some choice =>
        by_cases hn : n = pd.currentRound
        · subst hn
          have hrdn : rd = rdn := by
            rw [h] at hrd
            exact (Option.some_inj.mp hrd).symm
          subst hrdn
          refine ⟨_, setRound_same _ _ _, ?_, ?_, Or.inr ⟨rfl, rfl⟩⟩
          · rw [h2]
            show statusRank RoundStatus.WAITING_RECEIVER_DECIDE
              ≤ statusRank RoundStatus.SHOW_FEEDBACK
            decide
          · intro hfb
            rw [h2] at hfb
            exact absurd hfb (by decide)
        · refine ⟨rdn, ?_, roundEvolves_refl rdn⟩
          exact (setRound_other pd.roundMap pd.currentRound n _ hn).trans h

theorem nextRoundFlagged_evolves (u : List Nat) (rd : RoundData) (pd : PublicData)
    (hrd : pd.roundMap pd.currentRound = some rd) (n : Nat) (rdn : RoundData)
    (h : pd.roundMap n = some rdn) :
    ∃ rdn2, (nextRoundFlagged u rd pd).1.roundMap n = some rdn2
      ∧ roundEvolves rdn rdn2 := by
  rw [nextRoundFlagged]
  by_cases hs : pd.senderId = some u
  · rw [if_pos hs]
    by_cases hn : n = pd.currentRound
    · subst hn
      have hrdn : rd = rdn := by
        rw [h] at hrd
        exact (Option.some_inj.mp hrd).symm
      subst hrdn
      exact ⟨_, setRound_same _ _ _,
        le_rfl, fun hfb => ⟨rfl, rfl, rfl, rfl, hfb⟩, Or.inl ⟨rfl, rfl⟩⟩
    · refine ⟨rdn, ?_, roundEvolves_refl rdn⟩
      exact (setRound_other pd.roundMap pd.currentRound n _ hn).trans h
  · rw [if_neg hs]
    by_cases hr : pd.receiverId = some u
    · rw [if_pos hr]
      by_cases hn : n = pd.currentRound
      · subst hn
        have hrdn : rd = rdn := by
          rw [h] at hrd
          exact (Option.some_inj.mp hrd).symm
        subst hrdn
        exact ⟨_, setRound_same _ _ _,
          le_rfl, fun hfb => ⟨rfl, rfl, rfl, rfl, hfb⟩, Or.inl ⟨rfl, rfl⟩⟩
      · refine ⟨rdn, ?_, roundEvolves_refl rdn⟩
        exact (setRound_other pd.roundMap pd.currentRound n _ hn).trans h
    · rw [if_neg hr]
      exact ⟨rdn, h, roundEvolves_refl rdn⟩

theorem nextRoundFlagged_roundMap_other (u : List Nat) (rd : RoundData)
    (pd : PublicData) (n : Nat) (hn : n ≠ pd.currentRound) :
    (nextRoundFlagged u rd pd).1.roundMap n = pd.roundMap n := by
  rw [nextRoundFlagged]
  by_cases hs : pd.senderId = some u
  · rw [if_pos hs]
    exact setRound_other pd.roundMap pd.currentRound n _ hn
  · rw [if_neg hs]
    by_cases hr : pd.receiverId = some u
    · rw [if_pos hr]
      exact setRound_other pd.roundMap pd.currentRound n _ hn
    · rw [if_neg hr]

theorem handleNextRound_evolves (config : SRConfig) (stageId u : List Nat)
    (rd : RoundData) (now : Nat) (pd : PublicData)
    (hrd : pd.roundMap pd.currentRound = some rd) (n : Nat) (rdn : RoundData)
    (h : pd.roundMap n = some rdn) :
    ∃ rdn2, (storedOf pd (handleNextRound config stageId u rd now pd)).roundMap n
        = some rdn2 ∧ roundEvolves rdn rdn2 := by
  rw [handleNextRound]
  by_cases hst : rd.status ≠ .SHOW_FEEDBACK
  · rw [if_pos hst]
    exact ⟨rdn, h, roundEvolves_refl rdn⟩
  · rw [if_neg hst]
    obtain ⟨rdn2, hm, he⟩ := nextRoundFlagged_evolves u rd pd hrd n rdn h
    by_cases hp : (!(nextRoundFlagged u rd pd).2) = true
    · rw [if_pos hp]
      exact ⟨rdn2, hm, he⟩
    · rw [if_neg hp]
      by_cases hend : pd.currentRound + 1 > config.numRounds
      · rw [if_pos hend]
        exact ⟨rdn2, hm, he⟩
      · rw [if_neg hend]
        by_cases hex : ((pd.roundMap (pd.currentRound + 1)).isSome) = true
        · rw [if_pos hex]
          exact ⟨rdn2, hm, he⟩
        · rw [if_neg hex]
          by_cases hn : n = pd.currentRound + 1
          · subst hn
            rw [h] at hex
            exact absurd rfl hex
          · refine ⟨rdn2, ?_, he⟩
            exact (setRound_other (nextRoundFlagged u rd pd).1.roundMap
              (pd.currentRound + 1) n _ hn).trans hm

theorem startGameIfReady_roundMap1 (pd1 : PublicData) (config : SRConfig)
    (stageId : List Nat) (now : Nat) (r : RoundData)
    (h : startGameIfReady pd1 config stageId now = some r) : pd1.roundMap 1 = none := by
  rw [startGameIfReady] at h
  cases hs : pd1.senderId with
  | none =>
    rw [hs] at h
    exact absurd h (by simp)
  | some sid =>
    cases hr : pd1.receiverId with
    | none =>
      rw [hs, hr] at h
      exact absurd h (by simp)
    | some rid =>
      rw [hs, hr] at h
      by_cases hex : ((pd1.roundMap 1).isSome) = true
      · have h2 : (if (pd1.roundMap 1).isSome = true then (none : Option RoundData)
            else some (createNewRound 1 config
              (pairSeedOf (some sid) (some rid) stageId) true now)) = some r := h
        rw [if_pos hex] at h2
        exact absurd h2 (by simp)
      · exact Option.not_isSome_iff_eq_none.mp (by simpa using hex)

theorem assignApply_evolves (config : SRConfig) (stageId : List Nat) (now : Nat)
    (pd pd1 : PublicData) (hmap : pd1.roundMap = pd.roundMap)
    (n : Nat) (rdn : RoundData) (h : pd.roundMap n = some rdn) :
    ∃ rdn2, (storedOf pd (assignApply pd1 config stageId now)).roundMap n = some rdn2
      ∧ roundEvolves rdn rdn2 := by
  rw [assignApply]
  cases hsg : startGameIfReady pd1 config stageId now with
  | none =>
    refine ⟨rdn, ?_, roundEvolves_refl rdn⟩
    show pd1.roundMap n = some rdn
    rw [hmap]
    exact h
  | some r =>
    have h1 : pd1.roundMap 1 = none := startGameIfReady_roundMap1 pd1 config stageId now r hsg
    rw [hmap] at h1
    by_cases hn : n = 1
    · subst hn
      rw [h1] at h
      exact absurd h (by simp)
    · refine ⟨rdn, ?_, roundEvolves_refl rdn⟩
      show setRound pd1.roundMap 1 r n = some rdn
      rw [setRound_other _ _ _ _ hn, hmap]
      exact h

theorem handleAssignRole_evolves (config : SRConfig) (stageId u : List Nat)
    (hist : Option Role) (reqRole : Option Role) (now : Nat) (pd : PublicData)
    (n : Nat) (rdn : RoundData) (h : pd.roundMap n = some rdn) :
    ∃ rdn2, (storedOf pd (handleAssignRole config stageId u hist reqRole now pd)).roundMap n
        = some rdn2 ∧ roundEvolves rdn rdn2 := by
  rw [handleAssignRole]
  by_cases hid : pd.senderId = some u ∨ pd.receiverId = some u
  · rw [if_pos hid]
    exact ⟨rdn, h, roundEvolves_refl rdn⟩
  · rw [if_neg hid]
    cases hslot : assignSlot pd hist reqRole with
    | error e =>
      exact ⟨rdn, h, roundEvolves_refl rdn⟩
    | ok slot =>
      cases slot with
      | sender =>
        exact assignApply_evolves config stageId now pd
          ({ pd with senderId := some u }) rfl n rdn h
      | receiver =>
        exact assignApply_evolves config stageId now pd
          ({ pd with receiverId := some u }) rfl n rdn h

theorem applyCall_roundEvolves (config : SRConfig) (stageId u : List Nat)
    (hist : Option Role) (now : Nat) (a : ActionKind) (payload : Payload)
    (pd : PublicData) (n : Nat) (rdn : RoundData) (h : pd.roundMap n = some rdn) :
    ∃ rdn2, (applyCall config stageId u hist now a payload pd).roundMap n = some rdn2
      ∧ roundEvolves rdn rdn2 := by
  rw [applyCall]
  cases a with
  | assign_role =>
    simp only [submitAction]
    exact handleAssignRole_evolves config stageId u hist payload.requestedRole now pd n rdn h
  | start_game =>
    by_cases hrole : pd.senderId = some u ∨ pd.receiverId = some u
    · simp only [submitAction]
      rw [if_pos hrole]
      cases hrd : pd.roundMap pd.currentRound with
      | none => exact ⟨rdn, h, roundEvolves_refl rdn⟩
      | some rd =>
        obtain ⟨res, heq, rdn2, hm, he⟩ := handleStartGame_evolves u rd now pd hrd n rdn h
        refine ⟨rdn2, ?_, he⟩
        show (storedOf pd (handleStartGame u rd now pd)).roundMap n = some rdn2
        rw [heq]
        exact hm
    · simp only [submitAction]
      rw [if_neg hrole]
      exact ⟨rdn, h, roundEvolves_refl rdn⟩
  | sender_signal =>
    by_cases hrole : pd.senderId = some u ∨ pd.receiverId = some u
    · simp only [submitAction]
      rw [if_pos hrole]
      cases hrd : pd.roundMap pd.currentRound with
      | none => exact ⟨rdn, h, roundEvolves_refl rdn⟩
      | some rd => exact handleSenderSignal_evolves config stageId u payload rd now pd hrd n rdn h
    · simp only [submitAction]
      rw [if_neg hrole]
      exact ⟨rdn, h, roundEvolves_refl rdn⟩
  | receiver_saw_message =>
    by_cases hrole : pd.senderId = some u ∨ pd.receiverId = some u
    · simp only [submitAction]
      rw [if_pos hrole]
      cases hrd : pd.roundMap pd.currentRound with
      | none => exact ⟨rdn, h, roundEvolves_refl rdn⟩
      | some rd =>
        obtain ⟨res, heq, rdn2, hm, he⟩ := handleReceiverSawMessage_evolves u rd now pd hrd n rdn h
        refine ⟨rdn2, ?_, he⟩
        show (storedOf pd (handleReceiverSawMessage u rd now pd)).roundMap n = some rdn2
        rw [heq]
        exact hm
    · simp only [submitAction]
      rw [if_neg hrole]
      exact ⟨rdn, h, roundEvolves_refl rdn⟩
  | receiver_choice =>
    by_cases hrole : pd.senderId = some u ∨ pd.receiverId = some u
    · simp only [submitAction]
      rw [if_pos hrole]
      cases hrd : pd.roundMap pd.currentRound with
      | none => exact ⟨rdn, h, roundEvolves_refl rdn⟩
      | some rd => exact handleReceiverChoice_evolves config stageId u payload rd now pd hrd n rdn h
    · simp only [submitAction]
      rw [if_neg hrole]
      exact ⟨rdn, h, roundEvolves_refl rdn⟩
  | next_round =>
    by_cases hrole : pd.senderId = some u ∨ pd.receiverId = some u
    · simp only [submitAction]
      rw [if_pos hrole]
      cases hrd : pd.roundMap pd.currentRound with
      | none => exact ⟨rdn, h, roundEvolves_refl rdn⟩
      | some rd => exact handleNextRound_evolves config stageId u rd now pd hrd n rdn h
    · simp only [submitAction]
      rw [if_neg hrole]
      exact ⟨rdn, h, roundEvolves_refl rdn⟩


theorem applyTrace_roundEvolves (config : SRConfig) (stageId : List Nat) :
    ∀ (cs : List Call) (pd : PublicData) (n : Nat) (rdn : RoundData),
      pd.roundMap n = some rdn →
      ∃ rdn2, (applyTrace config stageId cs pd).roundMap n = some rdn2
        ∧ roundEvolves rdn rdn2
  | [], pd, n, rdn, h => ⟨rdn, h, roundEvolves_refl rdn⟩
  | c :: cs, pd, n, rdn, h => by
    obtain ⟨rdn1, h1, e1⟩ := applyCall_roundEvolves config stageId
      c.userId c.hist c.now c.action c.payload pd n rdn h
    obtain ⟨rdn2, h2, e2⟩ := applyTrace_roundEvolves config stageId cs
      (applyCall config stageId c.userId c.hist c.now c.action c.payload pd) n rdn1 h1
    exact ⟨rdn2, h2, roundEvolves_trans e1 e2⟩

/-- C5: across every sequence of client requests, an existing round never
disappears, its status never moves backward through the fixed order, and once
it has reached SHOW_FEEDBACK its senderChoice, receiverChoice and both payoffs
never change again. -/
theorem c5_round_monotone (config : SRConfig) (stageId : List Nat) (cs : List Call)
    (pd : PublicData) (n : Nat) (rdn : RoundData) (h : pd.roundMap n = some rdn) :
    ∃ rdn2, (applyTrace config stageId cs pd).roundMap n = some rdn2
      ∧ statusRank rdn.status ≤ statusRank rdn2.status
      ∧ (rdn.status = .SHOW_FEEDBACK →
          rdn2.senderChoice = rdn.senderChoice
          ∧ rdn2.receiverChoice = rdn.receiverChoice
          ∧ rdn2.senderPayoff = rdn.senderPayoff
          ∧ rdn2.receiverPayoff = rdn.receiverPayoff
          ∧ rdn2.status = .SHOW_FEEDBACK) := by
  obtain ⟨rdn2, hm, e⟩ := applyTrace_roundEvolves config stageId cs pd n rdn h
  exact ⟨rdn2, hm, e.1, e.2.1⟩

/-- Witness for C5 on the concrete fixture instance with a two-request trace. -/
theorem c5_round_monotone_witness :
    ∃ rdn2,
      (applyTrace wCfg wSid
          [{ userId := wSender, action := .next_round },
            { userId := wReceiver, action := .receiver_saw_message }]
          (wPd .SHOW_FEEDBACK)).roundMap 1 = some rdn2
      ∧ statusRank (wRound .SHOW_FEEDBACK).status ≤ statusRank rdn2.status
      ∧ ((wRound .SHOW_FEEDBACK).status = .SHOW_FEEDBACK →
          rdn2.senderChoice = (wRound .SHOW_FEEDBACK).senderChoice
          ∧ rdn2.receiverChoice = (wRound .SHOW_FEEDBACK).receiverChoice
          ∧ rdn2.senderPayoff = (wRound .SHOW_FEEDBACK).senderPayoff
          ∧ rdn2.receiverPayoff = (wRound .SHOW_FEEDBACK).receiverPayoff
          ∧ rdn2.status = .SHOW_FEEDBACK) :=
  c5_round_monotone wCfg wSid
    [{ userId := wSender, action := .next_round },
      { userId := wReceiver, action := .receiver_saw_message }]
    (wPd .SHOW_FEEDBACK) 1 (wRound .SHOW_FEEDBACK) rfl

/-- C6 (corrected): the two payoff fields always move together - in any single
transaction they are either both left unchanged or both written; but
receiver_choice always recomputes and rewrites them from the recorded
senderChoice, so payoffs zero-forced by a timed-out sender survive only when
the recorded senderChoice is null (in which case they are rewritten as 0); a
timed-out sender_signal that carried a non-null choice has its zero-forced
payoffs overwritten by the payoff table at receiver_choice. -/
theorem c6_payoffs_amended (config : SRConfig) (stageId u : List Nat) (hist : Option Role)
    (now : Nat) (a : ActionKind) (payload : Payload) (pd : PublicData) :
    (∀ n rdn, pd.roundMap n = some rdn →
      ∃ rdn2, (applyCall config stageId u hist now a payload pd).roundMap n = some rdn2
        ∧ ((rdn2.senderPayoff = rdn.senderPayoff ∧ rdn2.receiverPayoff = rdn.receiverPayoff)
          ∨ (rdn2.senderPayoff.isSome ∧ rdn2.receiverPayoff.isSome)))
    ∧ (∀ rd choice, pd.receiverId = some u → pd.roundMap pd.currentRound = some rd →
        rd.status = .WAITING_RECEIVER_DECIDE → payload.receiverChoice = some choice →
        ∃ pd2 rd2,
          submitAction config stageId u hist now .receiver_choice payload pd = .ok pd2
          ∧ pd2.roundMap pd.currentRound = some rd2
          ∧ rd2.senderPayoff
              = some (receiverPayoffCalc config rd.senderChoice choice rd.trueState).1
          ∧ rd2.receiverPayoff
              = some (receiverPayoffCalc config rd.senderChoice choice rd.trueState).2
          ∧ (rd.senderChoice = none →
              rd2.senderPayoff = some 0 ∧ rd2.receiverPayoff = some 0)) := by
  constructor
  · intro n rdn h
    obtain ⟨rdn2, hm, e⟩ := applyCall_roundEvolves config stageId u hist now a payload pd n rdn h
    exact ⟨rdn2, hm, e.2.2⟩
  · intro rd choice hv hrd hst hch
    rw [submitAction_receiver_choice config stageId u hist now payload pd rd (Or.inr hv) hrd]
    rw [handleReceiverChoice, if_neg (by simp [hv]), if_neg (by simp [hst]), hch]
    refine ⟨_, _, rfl, setRound_same _ _ _, rfl, rfl, ?_⟩
    intro hnone
    constructor
    · show some (receiverPayoffCalc config rd.senderChoice choice rd.trueState).1 = some 0
      rw [hnone, receiverPayoffCalc, if_pos rfl]
    · show some (receiverPayoffCalc config rd.senderChoice choice rd.trueState).2 = some 0
      rw [hnone, receiverPayoffCalc, if_pos rfl]

/-- Witness for C6 on the concrete fixture instance. -/
theorem c6_payoffs_amended_witness :
    ∃ pd2 rd2,
      submitAction wCfg wSid wReceiver none 0 .receiver_choice
          { receiverChoice := some .A } (wPd .WAITING_RECEIVER_DECIDE) = .ok pd2
      ∧ pd2.roundMap (wPd .WAITING_RECEIVER_DECIDE).currentRound = some rd2
      ∧ rd2.senderPayoff = some (receiverPayoffCalc wCfg
          (wRound .WAITING_RECEIVER_DECIDE).senderChoice .A
          (wRound .WAITING_RECEIVER_DECIDE).trueState).1
      ∧ rd2.receiverPayoff = some (receiverPayoffCalc wCfg
          (wRound .WAITING_RECEIVER_DECIDE).senderChoice .A
          (wRound .WAITING_RECEIVER_DECIDE).trueState).2
      ∧ ((wRound .WAITING_RECEIVER_DECIDE).senderChoice = none →
          rd2.senderPayoff = some 0 ∧ rd2.receiverPayoff = some 0) :=
  (c6_payoffs_amended wCfg wSid wReceiver none 0 .receiver_choice
    { receiverChoice := some .A } (wPd .WAITING_RECEIVER_DECIDE)).2
    (wRound .WAITING_RECEIVER_DECIDE) .A rfl rfl rfl rfl

set_option maxRecDepth 4000 in
/-- Counterexample for C6 as stated: under requireParticipantClick, a timed-out
sender_signal carrying choice A zero-forces both payoffs to 0; the later
receiver_choice then invokes the payoff logic again and overwrites them with
the table values (30, 20), so they do not stay in place. -/
theorem c6_counterexample :
    (c6pd1.roundMap 1).map (fun r => (r.senderPayoff, r.receiverPayoff))
      = some (some 0, some 0)
    ∧ submitAction wCfg wSid wReceiver none 0 .receiver_choice
        { receiverChoice := some .A } c6pd1 = .ok c6pd2
    ∧ (c6pd2.roundMap 1).map (fun r => (r.senderPayoff, r.receiverPayoff))
      = some (some 30, some 20) :=
  ⟨rfl, rfl, rfl⟩


/-- Counterexample for C4 as stated: a start_game call arriving at status
WAITING_SENDER_DECIDE (a wrong round status) does not fail with a named error;
it returns success and leaves the instance unchanged (a silent no-op). -/
theorem c4_counterexample :
    submitAction wCfg wSid wSender none 0 .start_game {} (wPd .WAITING_SENDER_DECIDE)
      = .ok (wPd .WAITING_SENDER_DECIDE)
    ∧ ¬ ∃ e : Err, submitAction wCfg wSid wSender none 0 .start_game {}
        (wPd .WAITING_SENDER_DECIDE) = .error e := by
  constructor
  · rfl
  · rintro ⟨e, h⟩
    have h1 : Except.ok (ε := Err) (wPd .WAITING_SENDER_DECIDE) = Except.error e := by
      rw [← h]
      rfl
    exact Except.noConfusion h1

/-- C4 (amended): a call from a participant holding neither role fails with
PermissionDenied for every game action; sender_signal and receiver_choice fail
with PermissionDenied for the wrong role and with StateConflict for the wrong
status; start_game and next_round at the wrong status, and receiver_saw_message
from the non-receiver, are silent no-ops returning the unchanged instance; and
issuing sender_signal twice in a row yields one committed choice, a
StateConflict on the second call, and the first submission intact. -/
theorem c4_guards_amended (config : SRConfig) (stageId u : List Nat) (hist : Option Role)
    (now : Nat) (payload : Payload) (pd : PublicData) :
    (¬(pd.senderId = some u ∨ pd.receiverId = some u) →
      ∀ a : ActionKind, a ≠ .assign_role →
        submitAction config stageId u hist now a payload pd
          = .error .permissionDeniedNotPlayer)
    ∧ (∀ rd, pd.roundMap pd.currentRound = some rd →
        (pd.receiverId = some u → pd.senderId ≠ some u →
          submitAction config stageId u hist now .sender_signal payload pd
            = .error .permissionDeniedOnlySender)
        ∧ (pd.senderId = some u → rd.status ≠ .WAITING_SENDER_DECIDE →
          submitAction config stageId u hist now .sender_signal payload pd
            = .error .stateConflictNotSenderTurn)
        ∧ (pd.senderId = some u → pd.receiverId ≠ some u →
          submitAction config stageId u hist now .receiver_choice payload pd
            = .error .permissionDeniedOnlyReceiver)
        ∧ (pd.receiverId = some u → rd.status ≠ .WAITING_RECEIVER_DECIDE →
          submitAction config stageId u hist now .receiver_choice payload pd
            = .error .stateConflictNotReceiverTurn)
        ∧ ((pd.senderId = some u ∨ pd.receiverId = some u) →
            rd.status ≠ .WAITING_BOTH_START →
          submitAction config stageId u hist now .start_game payload pd = .ok pd)
        ∧ ((pd.senderId = some u ∨ pd.receiverId = some u) →
            rd.status ≠ .SHOW_FEEDBACK →
          submitAction config stageId u hist now .next_round payload pd = .ok pd)
        ∧ (pd.senderId = some u → pd.receiverId ≠ some u →
          submitAction config stageId u hist now .receiver_saw_message payload pd = .ok pd))
    ∧ (∀ rd, pd.roundMap pd.currentRound = some rd →
        pd.senderId = some u → rd.status = .WAITING_SENDER_DECIDE →
        ∃ pd1 rd1,
          submitAction config stageId u hist now .sender_signal payload pd = .ok pd1
          ∧ pd1.currentRound = pd.currentRound
          ∧ pd1.roundMap pd.currentRound = some rd1
          ∧ rd1.senderChoice = payload.senderChoice
          ∧ rd1.status = .WAITING_RECEIVER_DECIDE
          ∧ submitAction config stageId u hist now .sender_signal payload pd1
              = .error .stateConflictNotSenderTurn
          ∧ applyCall config stageId u hist now .sender_signal payload pd1 = pd1) := by
  refine ⟨?_, ?_, ?_⟩
  · intro h a ha
    exact submitAction_not_player config stageId u hist now a payload pd ha h
  · intro rd hrd
    refine ⟨?_, ?_, ?_, ?_, ?_, ?_, ?_⟩
    · intro hv hns
      rw [submitAction_sender_signal config stageId u hist now payload pd rd (Or.inr hv) hrd,
        handleSenderSignal, if_pos hns]
    · intro hs hstat
      rw [submitAction_sender_signal config stageId u hist now payload pd rd (Or.inl hs) hrd,
        handleSenderSignal, if_neg (by simp [hs]), if_pos hstat]
    · intro hs hnr
      rw [submitAction_receiver_choice config stageId u hist now payload pd rd (Or.inl hs) hrd,
        handleReceiverChoice, if_pos hnr]
    · intro hv hstat
      rw [submitAction_receiver_choice config stageId u hist now payload pd rd (Or.inr hv) hrd,
        handleReceiverChoice, if_neg (by simp [hv]), if_pos hstat]
    · intro hrole hstat
      rw [submitAction_start_game config stageId u hist now payload pd rd hrole hrd,
        handleStartGame, if_pos hstat]
    · intro hrole hstat
      rw [submitAction_next_round config stageId u hist now payload pd rd hrole hrd,
        handleNextRound, if_pos hstat]
    · intro hs hnr
      rw [submitAction_receiver_saw_message config stageId u hist now payload pd rd
        (Or.inl hs) hrd, handleReceiverSawMessage, if_pos hnr]
  · intro rd hrd hs hstat
    have herr : submitAction config stageId u hist now .sender_signal payload
        { pd with roundMap := (setRound pd.roundMap pd.currentRound
            (senderSignalRound config stageId payload rd now pd)) }
        = .error .stateConflictNotSenderTurn := by
      rw [submitAction_sender_signal config stageId u hist now payload
        ({ pd with roundMap := (setRound pd.roundMap pd.currentRound
            (senderSignalRound config stageId payload rd now pd)) })
        (senderSignalRound config stageId payload rd now pd) (Or.inl hs)
        (setRound_same _ _ _)]
      rw [handleSenderSignal, if_neg (by simp [hs]), if_pos (by simp [senderSignalRound])]
    refine ⟨{ pd with roundMap := (setRound pd.roundMap pd.currentRound
        (senderSignalRound config stageId payload rd now pd)) },
      senderSignalRound config stageId payload rd now pd,
      ?_, rfl, setRound_same _ _ _, rfl, rfl, herr, ?_⟩
    · rw [submitAction_sender_signal config stageId u hist now payload pd rd (Or.inl hs) hrd,
        handleSenderSignal, if_neg (by simp [hs]), if_neg (by simp [hstat])]
    · rw [applyCall, herr]
      rfl

/-- Witness for C4 on the concrete fixture instance: next_round at the wrong
status is a silent success. -/
theorem c4_guards_amended_witness :
    submitAction wCfg wSid wReceiver none 0 .next_round {} (wPd .WAITING_SENDER_DECIDE)
      = .ok (wPd .WAITING_SENDER_DECIDE) :=
  (((c4_guards_amended wCfg wSid wReceiver none 0 {} (wPd .WAITING_SENDER_DECIDE)).2.1
    (wRound .WAITING_SENDER_DECIDE) rfl).2.2.2.2.2.1) (Or.inr rfl) (by decide)


theorem c1_advance_core (config : SRConfig) (stageId uS uR w : List Nat)
    (hist2 : Option Role) (n2 : Nat) (p2 : Payload) (pd1 : PublicData)
    (rd1 rdF : RoundData)
    (hrole : pd1.senderId = some w ∨ pd1.receiverId = some w)
    (hrd : pd1.roundMap pd1.currentRound = some rd1) (hst : rd1.status = .SHOW_FEEDBACK)
    (hnext : pd1.roundMap (pd1.currentRound + 1) = none)
    (hflagEq : nextRoundFlagged w rd1 pd1
      = (PublicData.mk (some uS) (some uR) pd1.currentRound
          (setRound pd1.roundMap pd1.currentRound rdF), true)) :
    ∃ pd2, submitAction config stageId w hist2 n2 .next_round p2 pd1 = .ok pd2
      ∧ pd2.senderId = some uS ∧ pd2.receiverId = some uR
      ∧ pd2.currentRound = pd1.currentRound + 1
      ∧ (pd1.currentRound + 1 > config.numRounds →
          pd2.roundMap (pd1.currentRound + 1) = none)
      ∧ (¬(pd1.currentRound + 1 > config.numRounds) →
          ∃ nr, pd2.roundMap (pd1.currentRound + 1) = some nr
            ∧ nr.status = .WAITING_SENDER_DECIDE)
      ∧ (∀ u3 hist3 n3 p3, (u3 = uS ∨ u3 = uR) →
          applyCall config stageId u3 hist3 n3 .next_round p3 pd2 = pd2) := by
  rw [submitAction_next_round config stageId w hist2 n2 p2 pd1 rd1 hrole hrd,
    handleNextRound, if_neg (by simp [hst]), hflagEq]
  have hother : setRound pd1.roundMap pd1.currentRound rdF (pd1.currentRound + 1) = none :=
    (setRound_other pd1.roundMap pd1.currentRound (pd1.currentRound + 1) rdF
      (by omega)).trans hnext
  by_cases hend : pd1.currentRound + 1 > config.numRounds
  · rw [if_pos hend]
    refine ⟨PublicData.mk (some uS) (some uR) (pd1.currentRound + 1)
        (setRound pd1.roundMap pd1.currentRound rdF),
      rfl, rfl, rfl, rfl, fun _ => hother, fun hno => absurd hend hno, ?_⟩
    intro u3 hist3 n3 p3 hu3
    have hrole3 : (PublicData.mk (some uS) (some uR) (pd1.currentRound + 1)
          (setRound pd1.roundMap pd1.currentRound rdF)).senderId = some u3
        ∨ (PublicData.mk (some uS) (some uR) (pd1.currentRound + 1)
          (setRound pd1.roundMap pd1.currentRound rdF)).receiverId = some u3 := by
      rcases hu3 with e | e
      · exact Or.inl (by rw [e])
      · exact Or.inr (by rw [e])
    rw [applyCall, submitAction_round_missing config stageId u3 hist3 n3 .next_round p3 _
      (by decide) hrole3 hother]
    rfl
  · rw [if_neg hend, hnext]
    refine ⟨PublicData.mk (some uS) (some uR) (pd1.currentRound + 1)
        (setRound (setRound pd1.roundMap pd1.currentRound rdF) (pd1.currentRound + 1)
          (nextRoundData config stageId pd1 (pd1.currentRound + 1) n2)),
      rfl, rfl, rfl, rfl, fun hyes => absurd hyes hend,
      fun _ => ⟨nextRoundData config stageId pd1 (pd1.currentRound + 1) n2,
        setRound_same _ _ _, rfl⟩, ?_⟩
    intro u3 hist3 n3 p3 hu3
    have hrole3 : (PublicData.mk (some uS) (some uR) (pd1.currentRound + 1)
          (setRound (setRound pd1.roundMap pd1.currentRound rdF) (pd1.currentRound + 1)
            (nextRoundData config stageId pd1 (pd1.currentRound + 1) n2))).senderId = some u3
        ∨ (PublicData.mk (some uS) (some uR) (pd1.currentRound + 1)
          (setRound (setRound pd1.roundMap pd1.currentRound rdF) (pd1.currentRound + 1)
            (nextRoundData config stageId pd1 (pd1.currentRound + 1) n2))).receiverId
            = some u3 := by
      rcases hu3 with e | e
      · exact Or.inl (by rw [e])
      · exact Or.inr (by rw [e])
    rw [applyCall, submitAction_next_round config stageId u3 hist3 n3 p3 _
      (nextRoundData config stageId pd1 (pd1.currentRound + 1) n2) hrole3
      (setRound_same _ _ _)]
    rw [handleNextRound, if_pos (by simp [nextRoundData])]
    rfl

theorem c1_advance_step (config : SRConfig) (stageId uS uR w : List Nat)
    (hist2 : Option Role) (n2 : Nat) (p2 : Payload) (pd1 : PublicData)
    (rd1 : RoundData)
    (hs : pd1.senderId = some uS) (hr : pd1.receiverId = some uR) (hne : uS ≠ uR)
    (hrd : pd1.roundMap pd1.currentRound = some rd1) (hst : rd1.status = .SHOW_FEEDBACK)
    (hnext : pd1.roundMap (pd1.currentRound + 1) = none)
    (hadv : (w = uS ∧ rd1.receiverReadyNext = true)
      ∨ (w = uR ∧ rd1.senderReadyNext = true)) :
    ∃ pd2, submitAction config stageId w hist2 n2 .next_round p2 pd1 = .ok pd2
      ∧ pd2.senderId = some uS ∧ pd2.receiverId = some uR
      ∧ pd2.currentRound = pd1.currentRound + 1
      ∧ (pd1.currentRound + 1 > config.numRounds →
          pd2.roundMap (pd1.currentRound + 1) = none)
      ∧ (¬(pd1.currentRound + 1 > config.numRounds) →
          ∃ nr, pd2.roundMap (pd1.currentRound + 1) = some nr
            ∧ nr.status = .WAITING_SENDER_DECIDE)
      ∧ (∀ u3 hist3 n3 p3, (u3 = uS ∨ u3 = uR) →
          applyCall config stageId u3 hist3 n3 .next_round p3 pd2 = pd2) := by
  rcases hadv with ⟨hw, hflag⟩ | ⟨hw, hflag⟩
  · subst hw
    refine c1_advance_core config stageId w uR w hist2 n2 p2 pd1 rd1
      ({ rd1 with senderReadyNext := true }) (Or.inl hs) hrd hst hnext ?_
    rw [nextRoundFlagged, if_pos hs, hs, hr, hflag]
  · subst hw
    refine c1_advance_core config stageId uS w w hist2 n2 p2 pd1 rd1
      ({ rd1 with receiverReadyNext := true }) (Or.inr hr) hrd hst hnext ?_
    rw [nextRoundFlagged, if_neg (by simp [hs, hne]), if_pos hr, hs, hr, hflag]

/-- C1: from SHOW_FEEDBACK, the two participants applying next_round in either
order advance currentRound by exactly one in total - the first call only sets
the caller readyNext flag, the second performs the advancement; a third
next_round call arriving after the advancement leaves the stored instance
unchanged; and when the incremented currentRound exceeds numRounds,
currentRound is still incremented but no new round is created (otherwise the
new round exists in WAITING_SENDER_DECIDE). -/
theorem c1_next_round_dance (config : SRConfig) (stageId uS uR : List Nat)
    (hist1 hist2 : Option Role) (n1 n2 : Nat) (p1 p2 : Payload)
    (pd : PublicData) (rd : RoundData)
    (hs : pd.senderId = some uS) (hr : pd.receiverId = some uR) (hne : uS ≠ uR)
    (hrd : pd.roundMap pd.currentRound = some rd) (hst : rd.status = .SHOW_FEEDBACK)
    (hf1 : rd.senderReadyNext = false) (hf2 : rd.receiverReadyNext = false)
    (hnext : pd.roundMap (pd.currentRound + 1) = none)
    (u1 u2 : List Nat)
    (horder : (u1 = uS ∧ u2 = uR) ∨ (u1 = uR ∧ u2 = uS)) :
    ∃ pd1 pd2,
      submitAction config stageId u1 hist1 n1 .next_round p1 pd = .ok pd1
      ∧ pd1.currentRound = pd.currentRound
      ∧ submitAction config stageId u2 hist2 n2 .next_round p2 pd1 = .ok pd2
      ∧ pd2.currentRound = pd.currentRound + 1
      ∧ (pd.currentRound + 1 > config.numRounds →
          pd2.roundMap (pd.currentRound + 1) = none)
      ∧ (¬(pd.currentRound + 1 > config.numRounds) →
          ∃ nr, pd2.roundMap (pd.currentRound + 1) = some nr
            ∧ nr.status = .WAITING_SENDER_DECIDE)
      ∧ (∀ u3 hist3 n3 p3, (u3 = uS ∨ u3 = uR) →
          applyCall config stageId u3 hist3 n3 .next_round p3 pd2 = pd2) := by
  rcases horder with ⟨e1, e2⟩ | ⟨e1, e2⟩
  · subst e1
    subst e2
    have hflag1 : nextRoundFlagged u1 rd pd
        = (PublicData.mk pd.senderId pd.receiverId pd.currentRound
            (setRound pd.roundMap pd.currentRound ({ rd with senderReadyNext := true })),
          false) := by
      rw [nextRoundFlagged, if_pos hs, hf2]
    have h1 : submitAction config stageId u1 hist1 n1 .next_round p1 pd
        = .ok (PublicData.mk pd.senderId pd.receiverId pd.currentRound
            (setRound pd.roundMap pd.currentRound ({ rd with senderReadyNext := true }))) := by
      rw [submitAction_next_round config stageId u1 hist1 n1 p1 pd rd (Or.inl hs) hrd,
        handleNextRound, if_neg (by simp [hst]), hflag1]
      rfl
    obtain ⟨pd2, h2, hsid2, hrid2, hcur2, hcomp, hcreate, hthird⟩ :=
      c1_advance_step config stageId u1 u2 u2 hist2 n2 p2
        (PublicData.mk pd.senderId pd.receiverId pd.currentRound
          (setRound pd.roundMap pd.currentRound ({ rd with senderReadyNext := true })))
        ({ rd with senderReadyNext := true })
        hs hr hne (setRound_same _ _ _) hst
        ((setRound_other pd.roundMap pd.currentRound (pd.currentRound + 1) _
          (by omega)).trans hnext)
        (Or.inr ⟨rfl, rfl⟩)
    exact ⟨_, pd2, h1, rfl, h2, hcur2, hcomp, hcreate, hthird⟩
  · subst e1
    subst e2
    have hflag1 : nextRoundFlagged u1 rd pd
        = (PublicData.mk pd.senderId pd.receiverId pd.currentRound
            (setRound pd.roundMap pd.currentRound ({ rd with receiverReadyNext := true })),
          false) := by
      rw [nextRoundFlagged, if_neg (by simp [hs, hne]), if_pos hr, hf1]
    have h1 : submitAction config stageId u1 hist1 n1 .next_round p1 pd
        = .ok (PublicData.mk pd.senderId pd.receiverId pd.currentRound
            (setRound pd.roundMap pd.currentRound ({ rd with receiverReadyNext := true }))) := by
      rw [submitAction_next_round config stageId u1 hist1 n1 p1 pd rd (Or.inr hr) hrd,
        handleNextRound, if_neg (by simp [hst]), hflag1]
      rfl
    obtain ⟨pd2, h2, hsid2, hrid2, hcur2, hcomp, hcreate, hthird⟩ :=
      c1_advance_step config stageId u2 u1 u2 hist2 n2 p2
        (PublicData.mk pd.senderId pd.receiverId pd.currentRound
          (setRound pd.roundMap pd.currentRound ({ rd with receiverReadyNext := true })))
        ({ rd with receiverReadyNext := true })
        hs hr hne (setRound_same _ _ _) hst
        ((setRound_other pd.roundMap pd.currentRound (pd.currentRound + 1) _
          (by omega)).trans hnext)
        (Or.inl ⟨rfl, rfl⟩)
    exact ⟨_, pd2, h1, rfl, h2, hcur2, hcomp, hcreate, hthird⟩

/-- Witness for C1 on the concrete fixture instance, receiver first. -/
theorem c1_next_round_dance_witness :
    ∃ pd1 pd2,
      submitAction wCfg wSid wReceiver none 0 .next_round {} (wPd .SHOW_FEEDBACK) = .ok pd1
      ∧ pd1.currentRound = (wPd .SHOW_FEEDBACK).currentRound
      ∧ submitAction wCfg wSid wSender none 0 .next_round {} pd1 = .ok pd2
      ∧ pd2.currentRound = (wPd .SHOW_FEEDBACK).currentRound + 1
      ∧ ((wPd .SHOW_FEEDBACK).currentRound + 1 > wCfg.numRounds →
          pd2.roundMap ((wPd .SHOW_FEEDBACK).currentRound + 1) = none)
      ∧ (¬((wPd .SHOW_FEEDBACK).currentRound + 1 > wCfg.numRounds) →
          ∃ nr, pd2.roundMap ((wPd .SHOW_FEEDBACK).currentRound + 1) = some nr
            ∧ nr.status = .WAITING_SENDER_DECIDE)
      ∧ (∀ u3 hist3 n3 p3, (u3 = wSender ∨ u3 = wReceiver) →
          applyCall wCfg wSid u3 hist3 n3 .next_round p3 pd2 = pd2) :=
  c1_next_round_dance wCfg wSid wSender wReceiver none none 0 0 {} {}
    (wPd .SHOW_FEEDBACK) (wRound .SHOW_FEEDBACK)
    rfl rfl (by decide) rfl rfl rfl rfl rfl
    wReceiver wSender (Or.inr ⟨rfl, rfl⟩)


theorem assignApply_ok (config : SRConfig) (stageId : List Nat) (now : Nat)
    (pd1 pd2 : PublicData) (hr1 : pd1.roundMap 1 = none)
    (h : assignApply pd1 config stageId now = .ok pd2)
    (hs2 : pd2.senderId.isSome = true) (hrr2 : pd2.receiverId.isSome = true) :
    pd2.currentRound = 1
      ∧ ∃ r, pd2.roundMap 1 = some r ∧ r.status = .WAITING_BOTH_START := by
  rw [assignApply] at h
  cases hsg : startGameIfReady pd1 config stageId now with
  | none =>
    rw [hsg] at h
    have hpd : pd1 = pd2 := by simpa using h
    subst hpd
    exfalso
    rw [startGameIfReady] at hsg
    cases hsid : pd1.senderId with
    | none => rw [hsid] at hs2; simp at hs2
    | some sid =>
      cases hrid : pd1.receiverId with
      | none => rw [hrid] at hrr2; simp at hrr2
      | some rid =>
        rw [hsid, hrid] at hsg
        simp [hr1] at hsg
  | some r =>
    rw [hsg] at h
    have hpd : { pd1 with roundMap := setRound pd1.roundMap 1 r, currentRound := 1 } = pd2 := by
      simpa using h
    subst hpd
    refine ⟨rfl, r, setRound_same pd1.roundMap 1 r, ?_⟩
    rw [startGameIfReady] at hsg
    cases hsid : pd1.senderId with
    | none => rw [hsid] at hsg; simp at hsg
    | some sid =>
      cases hrid : pd1.receiverId with
      | none => rw [hsid, hrid] at hsg; simp at hsg
      | some rid =>
        rw [hsid, hrid] at hsg
        simp [hr1] at hsg
        rw [← hsg]
        rfl

/-- C9: an assign_role call on an instance with a still-open role slot and no
round 1 that succeeds leaving both roles filled has, in the same transaction,
created round 1 in WAITING_BOTH_START and set currentRound to 1; and on an
empty instance two assign_role calls with no requestedRole and no history make
the first caller the Sender and the second the Receiver, with round 1 created
exactly at the second call. -/
theorem c9_assign_role_creates_round_one :
    (∀ (config : SRConfig) (stageId userId : List Nat) (hist : Option Role)
      (now : Nat) (payload : Payload) (pd pd2 : PublicData),
      pd.senderId = none ∨ pd.receiverId = none →
      pd.roundMap 1 = none →
      submitAction config stageId userId hist now .assign_role payload pd = .ok pd2 →
      pd2.senderId.isSome = true → pd2.receiverId.isSome = true →
      pd2.currentRound = 1
        ∧ ∃ r, pd2.roundMap 1 = some r ∧ r.status = .WAITING_BOTH_START)
    ∧ (∀ (config : SRConfig) (stageId u1 u2 : List Nat) (n1 n2 : Nat), u1 ≠ u2 →
      ∃ pd1 pd2,
        submitAction config stageId u1 none n1 .assign_role {}
          createSenderReceiverStagePublicData = .ok pd1
        ∧ pd1.senderId = some u1 ∧ pd1.receiverId = none ∧ pd1.roundMap 1 = none
        ∧ submitAction config stageId u2 none n2 .assign_role {} pd1 = .ok pd2
        ∧ pd2.senderId = some u1 ∧ pd2.receiverId = some u2 ∧ pd2.currentRound = 1
        ∧ ∃ r, pd2.roundMap 1 = some r ∧ r.status = .WAITING_BOTH_START) := by
  constructor
  · intro config stageId userId hist now payload pd pd2 hpre hr1 h hs2 hrr2
    have h2 : handleAssignRole config stageId userId hist payload.requestedRole now pd
        = .ok pd2 := h
    rw [handleAssignRole] at h2
    by_cases hno : pd.senderId = some userId ∨ pd.receiverId = some userId
    · rw [if_pos hno] at h2
      have hpd : pd = pd2 := by simpa using h2
      subst hpd
      rcases hpre with e | e
      · rw [e] at hs2; simp at hs2
      · rw [e] at hrr2; simp at hrr2
    · rw [if_neg hno] at h2
      cases hslot : assignSlot pd hist payload.requestedRole with
      | error e => rw [hslot] at h2; exact Except.noConfusion h2
      | ok role =>
        rw [hslot] at h2
        cases role with
        | sender =>
          exact assignApply_ok config stageId now
            ({ pd with senderId := some userId }) pd2 hr1 h2 hs2 hrr2
        | receiver =>
          exact assignApply_ok config stageId now
            ({ pd with receiverId := some userId }) pd2 hr1 h2 hs2 hrr2
  · intro config stageId u1 u2 n1 n2 hne
    refine ⟨PublicData.mk (some u1) none 1 (fun _ => none),
      PublicData.mk (some u1) (some u2) 1
        (setRound (fun _ => none) 1
          (createNewRound 1 config (pairSeedOf (some u1) (some u2) stageId) true n2)),
      rfl, rfl, rfl, rfl, ?_, rfl, rfl, rfl,
      createNewRound 1 config (pairSeedOf (some u1) (some u2) stageId) true n2, rfl, rfl⟩
    show handleAssignRole config stageId u2 none none n2
        (PublicData.mk (some u1) none 1 (fun _ => none))
      = .ok (PublicData.mk (some u1) (some u2) 1
        (setRound (fun _ => none) 1
          (createNewRound 1 config (pairSeedOf (some u1) (some u2) stageId) true n2)))
    rw [handleAssignRole, if_neg (by simp [hne])]
    rfl

/-- Witness for C9 at the concrete fixture: completing the roles on an
instance whose receiver slot is open, and the two-call Scenario C run. -/
theorem c9_assign_role_creates_round_one_witness :
    ((PublicData.mk (some wSender) (some wReceiver) 1
        (setRound (fun _ => none) 1
          (createNewRound 1 wCfg (pairSeedOf (some wSender) (some wReceiver) wSid)
            true 0))).currentRound = 1
      ∧ ∃ r, (PublicData.mk (some wSender) (some wReceiver) 1
          (setRound (fun _ => none) 1
            (createNewRound 1 wCfg (pairSeedOf (some wSender) (some wReceiver) wSid)
              true 0))).roundMap 1 = some r ∧ r.status = .WAITING_BOTH_START)
    ∧ (∃ pd1 pd2,
        submitAction wCfg wSid wSender none 0 .assign_role {}
          createSenderReceiverStagePublicData = .ok pd1
        ∧ pd1.senderId = some wSender ∧ pd1.receiverId = none ∧ pd1.roundMap 1 = none
        ∧ submitAction wCfg wSid wReceiver none 0 .assign_role {} pd1 = .ok pd2
        ∧ pd2.senderId = some wSender ∧ pd2.receiverId = some wReceiver
        ∧ pd2.currentRound = 1
        ∧ ∃ r, pd2.roundMap 1 = some r ∧ r.status = .WAITING_BOTH_START) :=
  ⟨c9_assign_role_creates_round_one.1 wCfg wSid wReceiver none 0 {}
      (PublicData.mk (some wSender) none 1 (fun _ => none))
      (PublicData.mk (some wSender) (some wReceiver) 1
        (setRound (fun _ => none) 1
          (createNewRound 1 wCfg (pairSeedOf (some wSender) (some wReceiver) wSid)
            true 0)))
      (Or.inr rfl) rfl rfl rfl rfl,
    c9_assign_role_creates_round_one.2 wCfg wSid wSender wReceiver 0 0 (by decide)⟩

end SRGame
